import Mathlib

/-!
Shallow embedding of the open-mpic-core MPIC engine (coordinator, CAA checker,
DCV checker, request validator, response builder) and proofs about it.

Modelling conventions:
* Python strings are Lean `String`s; the handful of string operations the code
  uses (split, strip, lower, substring test) are re-implemented on the
  character list so that everything reduces in the kernel.
* Bytes are `Nat`s (values 0..255); byte strings are `List Nat`.
* Network effects (DNS resolution, HTTP fetches, remote perspective calls) are
  passed in as explicit oracle functions describing the outcome of each call.
* Python exceptions are modelled with `Except PyErr`; an uncaught exception is
  an `Except.error` result.
* Wall-clock timestamps (`time.time_ns()`) are external effects and are not
  modelled; the `timestamp_ns` fields are omitted from the response records.
-/

/-! ### Python string primitives -/

/-- Python `sep.split` for a one-character separator, on a character list:
`splitCharAux c cs acc` returns the chunks of `cs` delimited by `c`, with the
(reversed) characters read so far in `acc`. -/
def splitCharAux (c : Char) : List Char → List Char → List (List Char)
  | [], acc => [acc.reverse]
  | x :: xs, acc => if x = c then acc.reverse :: splitCharAux c xs [] else splitCharAux c xs (x :: acc)

/-- Python `s.split(sep)` for a one-character separator `sep`. -/
def strSplitChar (c : Char) (s : String) : List String :=
  (splitCharAux c s.data []).map String.mk

/-- Python `s.strip()` (whitespace on both ends; ASCII whitespace suffices for
every string this code strips). -/
def strStrip (s : String) : String :=
  String.mk (((s.data.dropWhile Char.isWhitespace).reverse.dropWhile Char.isWhitespace).reverse)

/-- Python `s.lower()` (the strings compared case-insensitively here are ASCII). -/
def strLower (s : String) : String :=
  String.mk (s.data.map Char.toLower)

/-- Contiguous-sublist test on character lists, by scanning suffixes. -/
def charsContain (needle : List Char) : List Char → Bool
  | [] => needle.isEmpty
  | x :: xs => needle.isPrefixOf (x :: xs) || charsContain needle xs

/-- Python `needle in hay` on strings: substring test (the empty string is a
substring of everything). -/
def strContains (hay needle : String) : Bool :=
  charsContain needle.data hay.data

/-- Python `s.startswith(p)`. -/
def strStartsWith (s p : String) : Bool :=
  p.data.isPrefixOf s.data

/-- Python `s.split(sep, 1)` for one-character `sep`: split on the first
occurrence only. -/
def strSplitFirst (c : Char) (s : String) : List String :=
  match strSplitChar c s with
  | [] => [s]
  | p :: rest => if rest = [] then [s] else [p, String.intercalate (String.mk [c]) rest]

/-- Python `"."` join of DNS labels (`Name.to_text(omit_final_dot=True)`). -/
def joinLabels (ls : List String) : String :=
  String.intercalate "." ls

/-- `dns.name.from_text`: the labels of a domain name, root excluded. -/
def nameLabels (s : String) : List String :=
  strSplitChar '.' s

/-! ### base64 (Python `base64.b64encode(...).decode()`) -/

/-- The standard base64 alphabet. -/
def base64Alphabet : List Char :=
  "ABCDEFGHIJKLMNOPQRSTUVWXYZabcdefghijklmnopqrstuvwxyz0123456789+/".data

/-- The base64 digit for a 6-bit value. -/
def base64CharAt (i : Nat) : Char :=
  base64Alphabet.getD i 'A'

/-- Standard base64 encoding of a byte list, with `=` padding. -/
def base64Encode : List Nat → String
  | [] => ""
  | [b1] =>
    let n := b1 % 256 * 65536
    String.mk [base64CharAt (n / 262144 % 64), base64CharAt (n / 4096 % 64)] ++ "=="
  | [b1, b2] =>
    let n := b1 % 256 * 65536 + b2 % 256 * 256
    String.mk [base64CharAt (n / 262144 % 64), base64CharAt (n / 4096 % 64),
      base64CharAt (n / 64 % 64)] ++ "="
  | b1 :: b2 :: b3 :: rest =>
    let n := b1 % 256 * 65536 + b2 % 256 * 256 + b3 % 256
    String.mk [base64CharAt (n / 262144 % 64), base64CharAt (n / 4096 % 64),
      base64CharAt (n / 64 % 64), base64CharAt (n % 64)] ++ base64Encode rest

/-- ASCII/Latin-1 decoding of a byte list, used to instantiate the charset
decoding of `aiohttp.ClientResponse.text` at concrete inputs. -/
def latin1Decode (bs : List Nat) : String :=
  String.mk (bs.map (fun b => Char.ofNat (b % 256)))

/-! ### Common domain types (`open_mpic_core.common_domain`) -/

/-- Python exceptions, as far as the embedded code can raise or catch them. -/
inductive PyErr
  | attributeError
  | indexError
  | valueError
  | stopIteration
  | mpicRequestValidationError
  | dnsException (className : String) (msg : String)
  deriving DecidableEq, Repr

/-- `MpicValidationError {error_type, error_message}`. -/
structure MpicValidationError where
  error_type : String
  error_message : String
  deriving DecidableEq, Repr

/-- `CheckType` discriminator (`caa` | `dcv`). -/
inductive CheckType
  | caa
  | dcv
  deriving DecidableEq, Repr

/-- `RemotePerspective {code, rir}`: an identified vantage point. -/
structure RemotePerspective where
  code : String
  rir : String
  deriving DecidableEq, Repr

/-- Modelled from the spec: `ErrorMessages.COORDINATOR_COMMUNICATION_ERROR.key`
(the `ErrorMessages` module is not under `src/`; the spec names the error type
`COORDINATOR_COMMUNICATION_ERROR`). -/
def coordinatorCommunicationErrorKey : String := "COORDINATOR_COMMUNICATION_ERROR"

/-- Modelled from the spec: `ErrorMessages.COORDINATOR_COMMUNICATION_ERROR.message`
(free-text message; its exact wording is irrelevant to every claim). -/
def coordinatorCommunicationErrorMessage : String := "Communication with the remote perspective failed."

/-- Modelled from the spec: `ErrorMessages.CAA_LOOKUP_ERROR.key` (the
`ErrorMessages` module is not under `src/`; the spec names the error type
`CAA_LOOKUP_ERROR`). -/
def caaLookupErrorKey : String := "CAA_LOOKUP_ERROR"

/-- Modelled from the spec: `ErrorMessages.CAA_LOOKUP_ERROR.message`. -/
def caaLookupErrorMessage : String := "There was an error looking up the CAA record."

/-! ### CAA checker (`mpic_caa_checker.py`) -/

/-- A CAA resource record as the checker reads it: flags byte, tag and value
(both already decoded to strings). -/
structure CaaRecord where
  flags : Nat
  tag : String
  value : String
  deriving DecidableEq, Repr

/-- `CaaCheckParameters` (modelled from the spec: `check_parameters.py` is not
under `src/`; the spec gives it the list of recognized issuer domains). The
`certificate_type` field is irrelevant to the checker and omitted. -/
structure CaaCheckParameters where
  caa_domains : Option (List String) := none
  deriving DecidableEq, Repr

/-- `CaaCheckRequest {domain_or_ip_target, caa_check_parameters?}`. -/
structure CaaCheckRequest where
  domain_or_ip_target : String
  caa_check_parameters : Option CaaCheckParameters := none
  deriving DecidableEq, Repr

/-- `CaaCheckResponseDetails {caa_record_present, found_at, records_seen}`. -/
structure CaaCheckResponseDetails where
  caa_record_present : Option Bool := none
  found_at : Option String := none
  records_seen : Option (List String) := none
  deriving DecidableEq, Repr

/-- `CaaCheckResponse` (the `timestamp_ns` field is an unmodelled wall-clock
effect; `perspective_code` is only populated by the coordinator's synthetic
error responses). -/
structure CaaCheckResponse where
  perspective_code : Option String := none
  check_passed : Bool
  errors : Option (List MpicValidationError) := none
  details : CaaCheckResponseDetails
  deriving DecidableEq, Repr

/-- The regex `^[a-zA-Z0-9]+(-*[a-zA-Z0-9]+)*$` used for CAA parameter tags and
issuer-domain labels. A string matches exactly when it is nonempty, consists of
ASCII alphanumerics and hyphens, and both ends are alphanumeric (hyphens may
only sit between alphanumerics, which is what the regex's groups enforce). -/
def matchesLabelRegex (s : String) : Bool :=
  !s.data.isEmpty
    && s.data.all (fun c => c.isAlphanum || c = '-')
    && (s.data.headD '-').isAlphanum
    && (s.data.getLastD '-').isAlphanum

/-- One `tag=value` parameter of a CAA value
(`extract_domain_and_parameters_from_caa_value`, parameter loop): split on the
first `=`, strip both sides, validate the tag against the tag regex and the
value's characters against `%x21-3A / %x3C-7E`. -/
def validateCaaParameter (parameter : String) : Except String (String × String) :=
  match strSplitFirst '=' parameter with
  | [tag0, value0] =>
    let tag := strStrip tag0
    let value := strStrip value0
    if !matchesLabelRegex tag then
      .error "CAA tag contains disallowed character"
    else if !value.data.all (fun ch => 0x21 ≤ ch.toNat && ch.toNat ≤ 0x7E && ch ≠ ';') then
      .error "CAA value contains disallowed character"
    else
      .ok (tag, value)
  | _ => .error "CAA parameter not formatted as tag=value"

/-- `MpicCaaChecker.extract_domain_and_parameters_from_caa_value`: split a CAA
value into issuer domain and parameters; `ValueError` becomes `.error`. -/
def extract_domain_and_parameters_from_caa_value (caa_value : String) :
    Except String (String × List (String × String)) := do
  let pieces :=
    if strContains caa_value ";" then
      let parts := strSplitChar ';' caa_value
      let issuer_domain_name := strStrip (parts.headD "")
      let param_list := parts.tail
      if param_list.length = 1 && strStrip (param_list.headD "") = "" then
        Except.ok (issuer_domain_name, ([] : List (String × String)))
      else do
        let params ← param_list.mapM validateCaaParameter
        Except.ok (issuer_domain_name, params)
    else
      Except.ok (strStrip caa_value, ([] : List (String × String)))
  let (issuer_domain_name, params) ← pieces
  if issuer_domain_name ≠ "" then
    let domain_labels := strSplitChar '.' issuer_domain_name
    if !domain_labels.all matchesLabelRegex then
      Except.error "CAA issuer domain name is not a valid domain name"
    else
      Except.ok (issuer_domain_name, params)
  else
    Except.ok (issuer_domain_name, params)

/-- `MpicCaaChecker.do_caa_values_permit_issuance`: some value parses and its
issuer domain is in the configured CAA domain list (a `ValueError` from the
parser is logged and skipped). -/
def do_caa_values_permit_issuance (value_list : List String) (caa_domains : List String) : Bool :=
  value_list.any (fun value =>
    match extract_domain_and_parameters_from_caa_value value with
    | .ok (domain, _) => caa_domains.contains domain
    | .error _ => false)

/-- The record-partition loop of `is_valid_for_issuance`: returns
`(issue_tags, issue_wild_tags, has_unknown_critical_flags)` in record order. -/
def scanCaaRecords : List CaaRecord → List String × List String × Bool
  | [] => ([], [], false)
  | r :: rest =>
    let s := scanCaaRecords rest
    let tag_lower := strLower r.tag
    if tag_lower = "issue" then
      (r.value :: s.1, s.2.1, s.2.2)
    else if tag_lower = "issuewild" then
      (s.1, r.value :: s.2.1, s.2.2)
    else if !(["contactemail", "contactphone", "issuemail", "iodef"].contains tag_lower)
        && r.flags &&& 128 ≠ 0 then
      (s.1, s.2.1, true)
    else
      (s.1, s.2.1, s.2.2)

/-- `MpicCaaChecker.is_valid_for_issuance`. -/
def is_valid_for_issuance (caa_domains : List String) (is_wc_domain : Bool)
    (rrset : List CaaRecord) : Bool :=
  let (issue_tags, issue_wild_tags, has_unknown_critical_flags) := scanCaaRecords rrset
  if has_unknown_critical_flags then
    false
  else if is_wc_domain && issue_wild_tags.length > 0 then
    do_caa_values_permit_issuance issue_wild_tags caa_domains
  else if issue_tags.length > 0 then
    do_caa_values_permit_issuance issue_tags caa_domains
  else
    true

/-- The outcome of a single DNS CAA query, as seen by the tree walk. -/
inductive CaaQueryResult
  | answer (rrset : List CaaRecord)
  | noAnswer
  | nxdomain
  | otherError
  deriving DecidableEq, Repr

/-- `MpicCaaChecker.find_caa_records_and_domain`: walk from the target name to
the DNS root; `NoAnswer`/`NXDOMAIN` move to the parent, any other resolver
error raises `MpicCaaLookupException` (modelled as `.error ()`). Returns the
record set found (or `none` at the root) and the domain the walk stopped at. -/
def find_caa_records_and_domain (resolve : List String → CaaQueryResult) :
    List String → Except Unit (Option (List CaaRecord) × List String)
  | [] => .ok (none, [])
  | l :: ls =>
    match resolve (l :: ls) with
    | .answer rrset => .ok (some rrset, l :: ls)
    | .noAnswer => find_caa_records_and_domain resolve ls
    | .nxdomain => find_caa_records_and_domain resolve ls
    | .otherError => .error ()

/-- Modelled from the spec: `DomainEncoder.prepare_target_for_lookup`
(`domain_encoder.py` is not under `src/`). IP literals are returned unchanged
and ASCII domain labels are their own A-labels, so on the ASCII targets
exercised here the encoding is the identity; the wildcard marker is preserved. -/
def prepare_target_for_lookup (target : String) : String := target

/-- `dnspython`'s textual rendering of a CAA rdata (`record_data.to_text()`),
used for the `records_seen` detail. -/
def caaRecordToText (r : CaaRecord) : String :=
  toString r.flags ++ " " ++ r.tag ++ " \"" ++ r.value ++ "\""

/-- `MpicCaaChecker.check_caa`, with the DNS resolver passed in as an oracle
from query names (label lists) to query outcomes. The mutation of a single
response object in the Python code becomes a case split building the final
response. -/
def check_caa (default_caa_domain_list : List String) (caa_request : CaaCheckRequest)
    (resolve : List String → CaaQueryResult) : CaaCheckResponse :=
  let caa_domains :=
    match caa_request.caa_check_parameters with
    | some p =>
      match p.caa_domains with
      | some ds => if ds.length > 0 then ds else default_caa_domain_list
      | none => default_caa_domain_list
    | none => default_caa_domain_list
  let is_wc_domain :=
    match caa_request.caa_check_parameters with
    | some _ => strStartsWith caa_request.domain_or_ip_target "*."
    | none => false
  let target := prepare_target_for_lookup caa_request.domain_or_ip_target
  match find_caa_records_and_domain resolve (nameLabels target) with
  | .error _ =>
    { check_passed := false
      errors := some [⟨caaLookupErrorKey, caaLookupErrorMessage⟩]
      details := { caa_record_present := none, found_at := none, records_seen := none } }
  | .ok (none, _) =>
    { check_passed := true
      errors := none
      details := { caa_record_present := some false, found_at := none, records_seen := none } }
  | .ok (some rrset, domain) =>
    { check_passed := is_valid_for_issuance caa_domains is_wc_domain rrset
      errors := none
      details := { caa_record_present := some true
                   found_at := some (joinLabels domain)
                   records_seen := some (rrset.map caaRecordToText) } }

/-! ### Request validator (`mpic_request_validator.py`) -/

/-- `MpicRequestOrchestrationParameters {perspective_count?, quorum_count?, max_attempts?}`. -/
structure MpicRequestOrchestrationParameters where
  perspective_count : Option Int := none
  quorum_count : Option Int := none
  max_attempts : Option Int := none
  deriving DecidableEq, Repr

/-- A validation issue, tagged with the offending value
(`MpicRequestValidationIssue(message, value)`). -/
inductive MpicRequestValidationIssue
  | invalid_perspective_count (requested : Int)
  | invalid_quorum_count (requested : Int)
  deriving DecidableEq, Repr

/-- `MpicRequestValidator.is_requested_perspective_count_valid`: an integer with
`2 <= requested_perspective_count <= len(target_perspectives)`. -/
def is_requested_perspective_count_valid (requested_perspective_count : Int)
    (target_perspectives : List RemotePerspective) : Bool :=
  2 ≤ requested_perspective_count
    && requested_perspective_count ≤ (target_perspectives.length : Int)

/-- The `quorum_is_valid` condition of `MpicRequestValidator.validate_quorum_count`:
`(pc - 1 <= qc <= pc <= 5) or (4 <= pc - 2 <= qc <= pc)`. -/
def quorumIsValid (requested_perspective_count quorum_count : Int) : Bool :=
  (requested_perspective_count - 1 ≤ quorum_count
      && quorum_count ≤ requested_perspective_count
      && requested_perspective_count ≤ 5)
    || (4 ≤ requested_perspective_count - 2
      && requested_perspective_count - 2 ≤ quorum_count
      && quorum_count ≤ requested_perspective_count)

/-- `MpicRequestValidator.validate_quorum_count`: the issues it appends. -/
def validate_quorum_count (requested_perspective_count quorum_count : Int) :
    List MpicRequestValidationIssue :=
  if quorumIsValid requested_perspective_count quorum_count then []
  else [.invalid_quorum_count quorum_count]

/-! ### DCV checker domain (`mpic_dcv_checker.py` and spec-modelled parameters) -/

/-- `DcvValidationMethod` (enum module not under `src/`; members as dispatched
on by `check_dcv` and named in the spec). -/
inductive DcvValidationMethod
  | website_change
  | acme_http_01
  | dns_change
  | acme_dns_01
  | ip_lookup
  | contact_email
  | contact_phone
  deriving DecidableEq, Repr

/-- `DnsRecordType` (enum module not under `src/`; members as used by the
checker and named in the spec). -/
inductive DnsRecordType
  | txt
  | cname
  | caa
  | a
  | aaaa
  deriving DecidableEq, Repr

/-- `DcvCheckParameters` (modelled from the spec: `check_parameters.py` is not
under `src/`). The spec makes it a tagged variant over `validation_method`
"carrying the fields each method needs", with `validation_method` as the inner
discriminator, which matches every access in `mpic_dcv_checker.py`; it is
flattened here into one record, fields unused by a method being ignored.
Note that it has no `validation_details` attribute. -/
structure DcvCheckParameters where
  validation_method : DcvValidationMethod
  challenge_value : String := ""
  key_authorization : String := ""
  token : String := ""
  http_token_path : String := ""
  url_scheme : String := "http"
  match_regex : Option String := none
  require_exact_match : Bool := false
  dns_name_prefix_opt : Option String := none
  dns_record_type : DnsRecordType := .txt
  http_headers : List (String × String) := []
  deriving DecidableEq, Repr

/-- `DcvCheckRequest {domain_or_ip_target, dcv_check_parameters}`. -/
structure DcvCheckRequest where
  domain_or_ip_target : String
  dcv_check_parameters : DcvCheckParameters
  deriving DecidableEq, Repr

/-- `RedirectResponse {status_code, url}`: one hop of an HTTP redirect chain. -/
structure RedirectResponse where
  status_code : Nat
  url : String
  deriving DecidableEq, Repr

/-- `DcvCheckResponseDetails`: the DNS-method and HTTP-method detail fields,
merged into one record of optionals (`DcvCheckResponseDetailsBuilder` starts
every field unset). -/
structure DcvCheckResponseDetails where
  records_seen : Option (List String) := none
  response_code : Option Nat := none
  ad_flag : Option Bool := none
  found_at : Option String := none
  response_status_code : Option Nat := none
  response_url : Option String := none
  response_history : Option (List RedirectResponse) := none
  response_page : Option String := none
  deriving DecidableEq, Repr

/-- `DcvCheckResponse` (the `timestamp_ns` field is an unmodelled wall-clock
effect; `perspective_code` is only populated by the coordinator's synthetic
error responses). -/
structure DcvCheckResponse where
  perspective_code : Option String := none
  check_passed : Bool
  errors : Option (List MpicValidationError) := none
  details : DcvCheckResponseDetails
  deriving DecidableEq, Repr

/-- `MpicDcvChecker.create_empty_check_response`: `check_passed=False`, no
errors, empty details for the method. -/
def create_empty_check_response (_validation_method : DcvValidationMethod) : DcvCheckResponse :=
  { check_passed := false, errors := none, details := {} }

/-- An HTTP response as `perform_http_based_validation` observes it: final
status and reason, the redirect hops (`history`), and the body bytes on offer. -/
structure HttpResponse where
  status : Nat
  reason : String
  history : List RedirectResponse
  body : List Nat
  deriving DecidableEq, Repr

/-- The outcome of one `aiohttp` GET: a response, or a raised
`ClientError`/`HTTPException` (carrying the exception class name and text). -/
inductive HttpFetchOutcome
  | ok (response : HttpResponse)
  | clientError (className : String) (msg : String)
  deriving DecidableEq, Repr

/-- `MpicDcvChecker.evaluate_http_lookup_response`, as a pure function from the
response under construction and the observed HTTP response to the finished
response. The response-charset text decoding (`ClientResponse.text`) and
`re.search` are external library calls, passed in as oracles `decode` and
`regexSearch` (`regexSearch pattern text`). -/
def evaluate_http_lookup_response (decode : List Nat → String)
    (regexSearch : String → String → Bool) (dcv_check_request : DcvCheckRequest)
    (dcv_check_response : DcvCheckResponse) (lookup_response : HttpResponse)
    (target_url : String) (challenge_value : String) : DcvCheckResponse :=
  let response_history :=
    if lookup_response.history.length > 0 then some lookup_response.history else none
  if lookup_response.status = 200 then
    let bytes_to_read := max 100 challenge_value.length
    let content := lookup_response.body.take bytes_to_read
    let response_text := decode content
    let result := strStrip response_text
    let expected_response_content := challenge_value
    let validation_method := dcv_check_request.dcv_check_parameters.validation_method
    let check_passed :=
      if validation_method = .acme_http_01 then
        expected_response_content == result
      else
        let contains_ok := strContains result expected_response_content
        match dcv_check_request.dcv_check_parameters.match_regex with
        | some match_regex =>
          if match_regex.length > 0 then contains_ok && regexSearch match_regex result
          else contains_ok
        | none => contains_ok
    { dcv_check_response with
      check_passed := check_passed
      details := { dcv_check_response.details with
        response_status_code := some lookup_response.status
        response_url := some target_url
        response_history := response_history
        response_page := some (base64Encode content) } }
  else
    { dcv_check_response with
      errors := some [⟨toString lookup_response.status, lookup_response.reason⟩] }

/-- `MpicDcvChecker.WELL_KNOWN_PKI_PATH`. -/
def wellKnownPkiPath : String := ".well-known/pki-validation"

/-- `MpicDcvChecker.WELL_KNOWN_ACME_PATH`. -/
def wellKnownAcmePath : String := ".well-known/acme-challenge"

/-- `MpicDcvChecker.perform_http_based_validation`, with the HTTP client as an
oracle from URL to fetch outcome. A raised `ClientError`/`HTTPException`
becomes the error response of the `except` block. -/
def perform_http_based_validation (decode : List Nat → String)
    (regexSearch : String → String → Bool) (httpGet : String → HttpFetchOutcome)
    (request : DcvCheckRequest) : DcvCheckResponse :=
  let validation_method := request.dcv_check_parameters.validation_method
  let domain_or_ip_target := request.domain_or_ip_target
  let expected_response_content :=
    if validation_method = .website_change then request.dcv_check_parameters.challenge_value
    else request.dcv_check_parameters.key_authorization
  let token_url :=
    if validation_method = .website_change then
      request.dcv_check_parameters.url_scheme ++ "://" ++ domain_or_ip_target ++ "/"
        ++ wellKnownPkiPath ++ "/" ++ request.dcv_check_parameters.http_token_path
    else
      "http://" ++ domain_or_ip_target ++ "/" ++ wellKnownAcmePath ++ "/"
        ++ request.dcv_check_parameters.token
  let dcv_check_response :=
    create_empty_check_response
      (if validation_method = .website_change then .website_change else .acme_http_01)
  match httpGet token_url with
  | .ok response =>
    evaluate_http_lookup_response decode regexSearch request dcv_check_response response
      token_url expected_response_content
  | .clientError className msg =>
    { dcv_check_response with errors := some [⟨className, msg⟩] }

/-- One rdata in a DNS answer, as the projections the checker reads: the CAA
`tag` and `value` (decoded), and the `to_text()` rendering. -/
structure DnsRecordData where
  tag : String := ""
  value : String := ""
  text : String := ""
  deriving DecidableEq, Repr

/-- One RRset of a DNS answer section, with its record type. -/
structure DnsRRset where
  rdtype : DnsRecordType
  records : List DnsRecordData
  deriving DecidableEq, Repr

/-- A DNS lookup answer (`dns.resolver.Answer`) as the checker observes it:
the answer section, the response RCODE and flags, and the query name
(rendered without the trailing dot, as `qname.to_text(omit_final_dot=True)`
produces it). -/
structure DnsAnswer where
  answer : List DnsRRset
  rcode : Nat
  flags : Nat
  qname : String
  deriving DecidableEq, Repr

/-- `dns.flags.AD`. -/
def dnsFlagAD : Nat := 32

/-- The per-record selection in `evaluate_dns_lookup_response`: for
CONTACT_EMAIL/CONTACT_PHONE over CAA keep only the matching tag's `value`
(otherwise `continue`); for everything else take the `to_text()` rendering. -/
def recordCandidate (validation_method : DcvValidationMethod)
    (dns_record_type : DnsRecordType) (record_data : DnsRecordData) : Option String :=
  if validation_method = .contact_email ∧ dns_record_type = .caa then
    if strLower record_data.tag = "contactemail" then some record_data.value else none
  else if validation_method = .contact_phone ∧ dns_record_type = .caa then
    if strLower record_data.tag = "contactphone" then some record_data.value else none
  else
    some record_data.text

/-- The enclosing-double-quote removal in `evaluate_dns_lookup_response`:
`s[0] == '"' and s[-1] == '"'` raises `IndexError` on an empty string. -/
def stripEnclosingQuotes (s : String) : Except PyErr String :=
  match s.data with
  | [] => .error .indexError
  | c :: _ =>
    if c = '"' ∧ s.data.getLast? = some '"' then
      .ok (String.mk (s.data.drop 1 |>.dropLast))
    else
      .ok s

/-- The record-extraction loop of `evaluate_dns_lookup_response` over one
RRset's records. -/
def extractFromRecords (validation_method : DcvValidationMethod)
    (dns_record_type : DnsRecordType) : List DnsRecordData → Except PyErr (List String)
  | [] => .ok []
  | record_data :: rest => do
    match recordCandidate validation_method dns_record_type record_data with
    | none => extractFromRecords validation_method dns_record_type rest
    | some s =>
      let s' ← stripEnclosingQuotes s
      let others ← extractFromRecords validation_method dns_record_type rest
      .ok (s' :: others)

/-- The record-extraction loops of `evaluate_dns_lookup_response` over the
answer section: only RRsets of the requested record type contribute. -/
def extractRecordsAsStrings (validation_method : DcvValidationMethod)
    (dns_record_type : DnsRecordType) : List DnsRRset → Except PyErr (List String)
  | [] => .ok []
  | response_answer :: rest => do
    let here ←
      if response_answer.rdtype = dns_record_type then
        extractFromRecords validation_method dns_record_type response_answer.records
      else
        .ok []
    let there ← extractRecordsAsStrings validation_method dns_record_type rest
    .ok (here ++ there)

/-- `MpicDcvChecker.evaluate_dns_lookup_response`, as a pure function from the
response under construction and the lookup answer to the finished response
(or the `IndexError` the quote-stripping can raise). -/
def evaluate_dns_lookup_response (dcv_check_response : DcvCheckResponse)
    (lookup_response : DnsAnswer) (validation_method : DcvValidationMethod)
    (dns_record_type : DnsRecordType) (expected_dns_record_content : String)
    (exact_match : Bool) : Except PyErr DcvCheckResponse := do
  let response_code := lookup_response.rcode
  let records_as_strings ←
    extractRecordsAsStrings validation_method dns_record_type lookup_response.answer
  let expected :=
    if dns_record_type = .cname then strLower expected_dns_record_content
    else expected_dns_record_content
  let records :=
    if dns_record_type = .cname then records_as_strings.map strLower
    else records_as_strings
  let check_passed :=
    if exact_match then records.contains expected
    else records.any (fun record => strContains record expected)
  .ok { dcv_check_response with
    check_passed := check_passed
    details := { dcv_check_response.details with
      response_code := some response_code
      records_seen := some records_as_strings
      ad_flag := some (lookup_response.flags &&& dnsFlagAD = dnsFlagAD)
      found_at := some lookup_response.qname } }

/-- The outcome of a single DNS query, as the checker's resolver sees it. -/
inductive DnsQueryResult
  | answer (a : DnsAnswer)
  | noAnswer
  | nxdomain
  | otherDnsError (className : String) (msg : String)
  deriving Repr

/-- The `NoAnswer` resolver exception, as `(class name, message)`. -/
def noAnswerError : PyErr :=
  .dnsException "NoAnswer" "The DNS response does not contain an answer to the question."

/-- The `NXDOMAIN` resolver exception, as `(class name, message)`. -/
def nxdomainError : PyErr :=
  .dnsException "NXDOMAIN" "The DNS query name does not exist."

/-- The tree walk of `perform_dns_resolution`: from the computed name up to the
DNS root, `NoAnswer`/`NXDOMAIN` move to the parent; reaching the root leaves
`lookup = None`. Any other resolver exception propagates. -/
def dnsTreeWalk (resolve : List String → DnsQueryResult) :
    List String → Except PyErr (Option DnsAnswer)
  | [] => .ok none
  | l :: ls =>
    match resolve (l :: ls) with
    | .answer a => .ok (some a)
    | .noAnswer => dnsTreeWalk resolve ls
    | .nxdomain => dnsTreeWalk resolve ls
    | .otherDnsError className msg => .error (.dnsException className msg)

/-- `MpicDcvChecker.perform_dns_resolution`: CONTACT_EMAIL/CONTACT_PHONE over
CAA walk the domain tree; every other method resolves exactly the computed
name (a `NoAnswer`/`NXDOMAIN` there is raised like any resolver exception). -/
def perform_dns_resolution (resolve : List String → DnsQueryResult)
    (name_to_resolve : String) (validation_method : DcvValidationMethod)
    (dns_record_type : DnsRecordType) : Except PyErr (Option DnsAnswer) :=
  let walk_domain_tree :=
    (validation_method = .contact_email ∨ validation_method = .contact_phone)
      ∧ dns_record_type = .caa
  if walk_domain_tree then
    dnsTreeWalk resolve (nameLabels name_to_resolve)
  else
    match resolve (nameLabels name_to_resolve) with
    | .answer a => .ok (some a)
    | .noAnswer => .error noAnswerError
    | .nxdomain => .error nxdomainError
    | .otherDnsError className msg => .error (.dnsException className msg)

/-- The call `evaluate_dns_lookup_response(dcv_check_response, lookup, ...)`
with `lookup` possibly `None` (as `perform_general_dns_validation` makes it):
on `None`, reading `lookup_response.response` raises `AttributeError`. -/
def evaluateDnsLookupOpt (dcv_check_response : DcvCheckResponse)
    (lookup : Option DnsAnswer) (validation_method : DcvValidationMethod)
    (dns_record_type : DnsRecordType) (expected_dns_record_content : String)
    (exact_match : Bool) : Except PyErr DcvCheckResponse :=
  match lookup with
  | none => .error .attributeError
  | some a =>
    evaluate_dns_lookup_response dcv_check_response a validation_method dns_record_type
      expected_dns_record_content exact_match

/-- The name `perform_general_dns_validation` resolves:
`{dns_name_prefix}.{domain_or_ip_target}` when a nonempty prefix is given,
else the target itself. -/
def nameToResolve (request : DcvCheckRequest) : String :=
  match request.dcv_check_parameters.dns_name_prefix_opt with
  | some pre =>
    if pre.length > 0 then pre ++ "." ++ request.domain_or_ip_target
    else request.domain_or_ip_target
  | none => request.domain_or_ip_target

/-- The `(expected_dns_record_content, exact_match)` pair chosen by
`perform_general_dns_validation`: the key authorization with forced exact
matching for ACME_DNS_01, else the challenge value with the request's
`require_exact_match` flag. -/
def dnsExpectedAndExact (request : DcvCheckRequest) : String × Bool :=
  if request.dcv_check_parameters.validation_method = .acme_dns_01 then
    (request.dcv_check_parameters.key_authorization, true)
  else
    (request.dcv_check_parameters.challenge_value,
      request.dcv_check_parameters.require_exact_match)

/-- `MpicDcvChecker.perform_general_dns_validation`: compute the name to
resolve and the expected content / exactness, run the lookup and evaluation,
and catch `dns.exception.DNSException` (only) into an error response. -/
def perform_general_dns_validation (resolve : List String → DnsQueryResult)
    (request : DcvCheckRequest) : Except PyErr DcvCheckResponse :=
  let validation_method := request.dcv_check_parameters.validation_method
  let dns_record_type := request.dcv_check_parameters.dns_record_type
  let name_to_resolve := nameToResolve request
  let expected_dns_record_content := (dnsExpectedAndExact request).1
  let exact_match := (dnsExpectedAndExact request).2
  let dcv_check_response := create_empty_check_response validation_method
  let attempt : Except PyErr DcvCheckResponse := do
    let lookup ← perform_dns_resolution resolve name_to_resolve validation_method dns_record_type
    evaluateDnsLookupOpt dcv_check_response lookup validation_method dns_record_type
      expected_dns_record_content exact_match
  match attempt with
  | .error (.dnsException className msg) =>
    .ok { dcv_check_response with errors := some [⟨className, msg⟩] }
  | other => other

/-- `MpicDcvChecker.check_dcv`: dispatch on the validation method (the
`DomainEncoder.prepare_target_for_lookup` step is the identity on the ASCII
targets modelled here). -/
def check_dcv (decode : List Nat → String) (regexSearch : String → String → Bool)
    (httpGet : String → HttpFetchOutcome) (resolve : List String → DnsQueryResult)
    (dcv_request : DcvCheckRequest) : Except PyErr DcvCheckResponse :=
  let dcv_request :=
    { dcv_request with
      domain_or_ip_target := prepare_target_for_lookup dcv_request.domain_or_ip_target }
  match dcv_request.dcv_check_parameters.validation_method with
  | .website_change => .ok (perform_http_based_validation decode regexSearch httpGet dcv_request)
  | .acme_http_01 => .ok (perform_http_based_validation decode regexSearch httpGet dcv_request)
  | _ => perform_general_dns_validation resolve dcv_request

/-! ### Coordinator domain (`mpic_coordinator`) -/

/-- `MpicRequest`: the discriminated union of `MpicCaaRequest` (optional CAA
parameters) and `MpicDcvRequest` (required DCV parameters). -/
inductive MpicRequest
  | caaRequest (domain_or_ip_target : String) (trace_identifier : Option String)
      (orchestration_parameters : Option MpicRequestOrchestrationParameters)
      (caa_check_parameters : Option CaaCheckParameters)
  | dcvRequest (domain_or_ip_target : String) (trace_identifier : Option String)
      (orchestration_parameters : Option MpicRequestOrchestrationParameters)
      (dcv_check_parameters : DcvCheckParameters)
  deriving DecidableEq, Repr

/-- The `check_type` discriminator of an `MpicRequest`. -/
def MpicRequest.check_type : MpicRequest → CheckType
  | .caaRequest _ _ _ _ => .caa
  | .dcvRequest _ _ _ _ => .dcv

/-- The `domain_or_ip_target` field of an `MpicRequest`. -/
def MpicRequest.domain_or_ip_target : MpicRequest → String
  | .caaRequest target _ _ _ => target
  | .dcvRequest target _ _ _ => target

/-- The `trace_identifier` field of an `MpicRequest`. -/
def MpicRequest.trace_identifier : MpicRequest → Option String
  | .caaRequest _ t _ _ => t
  | .dcvRequest _ t _ _ => t

/-- The `orchestration_parameters` field of an `MpicRequest`. -/
def MpicRequest.orchestration_parameters :
    MpicRequest → Option MpicRequestOrchestrationParameters
  | .caaRequest _ _ o _ => o
  | .dcvRequest _ _ o _ => o

/-- The `caa_check_parameters` field of an `MpicRequest` (absent on DCV requests). -/
def MpicRequest.caa_check_parameters : MpicRequest → Option CaaCheckParameters
  | .caaRequest _ _ _ p => p
  | .dcvRequest _ _ _ _ => none

/-- The `dcv_check_parameters` field of an `MpicRequest` (absent on CAA requests). -/
def MpicRequest.dcv_check_parameters : MpicRequest → Option DcvCheckParameters
  | .caaRequest _ _ _ _ => none
  | .dcvRequest _ _ _ p => some p

/-- `MpicRequestValidator.is_request_valid`: returns
`(no issues found, issues found)`. -/
def is_request_valid (mpic_request : MpicRequest)
    (known_perspectives : List RemotePerspective) :
    Bool × List MpicRequestValidationIssue :=
  match mpic_request.orchestration_parameters with
  | none => (true, [])
  | some o =>
    let (should_validate_quorum_count, requested_perspective_count, pc_issues) :=
      match o.perspective_count with
      | none => (false, (0 : Int), ([] : List MpicRequestValidationIssue))
      | some pc =>
        if is_requested_perspective_count_valid pc known_perspectives then (true, pc, [])
        else (false, pc, [.invalid_perspective_count pc])
    let qc_issues :=
      match o.quorum_count with
      | some qc =>
        if should_validate_quorum_count then
          validate_quorum_count requested_perspective_count qc
        else []
      | none => []
    let request_validation_issues := pc_issues ++ qc_issues
    (request_validation_issues.length = 0, request_validation_issues)

/-- `CheckResponse`: the union of CAA and DCV check responses. -/
inductive CheckResponse
  | caa (response : CaaCheckResponse)
  | dcv (response : DcvCheckResponse)
  deriving DecidableEq, Repr

/-- The `check_passed` field of either `CheckResponse` variant. -/
def CheckResponse.check_passed : CheckResponse → Bool
  | .caa r => r.check_passed
  | .dcv r => r.check_passed

/-- The `errors` field of either `CheckResponse` variant. -/
def CheckResponse.errors : CheckResponse → Option (List MpicValidationError)
  | .caa r => r.errors
  | .dcv r => r.errors

/-- `CheckRequest`: the union of CAA and DCV check requests, as built by
`collect_async_calls_to_issue`. -/
inductive CheckRequest
  | caa (request : CaaCheckRequest)
  | dcv (request : DcvCheckRequest)
  deriving DecidableEq, Repr

/-- `RemoteCheckCallConfiguration {check_type, perspective, check_request}`. -/
structure RemoteCheckCallConfiguration where
  check_type : CheckType
  perspective : RemotePerspective
  check_request : CheckRequest
  deriving DecidableEq, Repr

/-- The outcome of one remote-perspective call: a returned `CheckResponse`, or
a raised exception (wrapped by `call_remote_perspective` into a
`RemoteCheckException` carrying the call configuration). -/
inductive CallOutcome
  | ok (response : CheckResponse)
  | exc
  deriving DecidableEq, Repr

/-- The per-request check parameters shared by every call configuration
(`collect_async_calls_to_issue`). On a DCV `MpicRequest` the
`dcv_check_parameters` field is always present (it is a required field of
`MpicDcvRequest`). -/
def checkRequestOf (mpic_request : MpicRequest) : CheckRequest :=
  match mpic_request with
  | .caaRequest target _ _ caa_params => .caa ⟨target, caa_params⟩
  | .dcvRequest target _ _ dcv_params => .dcv ⟨target, dcv_params⟩

/-- `MpicCoordinator.collect_async_calls_to_issue`. -/
def collect_async_calls_to_issue (mpic_request : MpicRequest)
    (perspectives_to_use : List RemotePerspective) : List RemoteCheckCallConfiguration :=
  perspectives_to_use.map
    (fun perspective => ⟨mpic_request.check_type, perspective, checkRequestOf mpic_request⟩)

/-- `MpicCoordinator.build_error_response_from_remote_check_exception`.
For CAA, the synthetic failed response. For DCV, the code reads
`dcv_check_request.dcv_check_parameters.validation_details.validation_method`
(`mpic_coordinator.py` line 199), but `DcvCheckParameters` has no
`validation_details` attribute (the checker and the request creators read
`validation_method` directly on it, and the spec makes `validation_method` the
inner discriminator of the flat parameters object), so the access raises
`AttributeError`. -/
def build_error_response_from_remote_check_exception
    (call_config : RemoteCheckCallConfiguration) : Except PyErr CheckResponse :=
  match call_config.check_type with
  | .caa =>
    .ok (.caa
      { perspective_code := some call_config.perspective.code
        check_passed := false
        errors := some [⟨coordinatorCommunicationErrorKey, coordinatorCommunicationErrorMessage⟩]
        details := { caa_record_present := none } })
  | .dcv => .error .attributeError

/-- The `validity_per_perspective` dictionary, in insertion order. -/
abbrev ValidityDict := List (String × Bool)

/-- Python dict assignment `d[k] = v`: overwrite the existing entry, else
append. -/
def dictSet : ValidityDict → String → Bool → ValidityDict
  | [], k, v => [(k, v)]
  | (k', v') :: rest, k, v =>
    if k' = k then (k, v) :: rest else (k', v') :: dictSet rest k v

/-- Python dict read `d[k]` (the keys read here are always present, having been
initialised from the same perspective list, so the missing-key `KeyError` case
is unreachable and `false` is returned for it). -/
def dictGet : ValidityDict → String → Bool
  | [], _ => false
  | (k', v) :: rest, k => if k' = k then v else dictGet rest k

/-- `sum(validity_per_perspective.values())`: the number of `True` values. -/
def dictSum (d : ValidityDict) : Nat :=
  (d.filter (fun e => e.2)).length

/-- `{perspective.code: False for perspective in perspectives_to_use}`. -/
def dictInit (perspectives_to_use : List RemotePerspective) : ValidityDict :=
  perspectives_to_use.foldl (fun d p => dictSet d p.code false) []

/-- The response-collection loop of `issue_async_calls_and_collect_responses`:
responses arrive in call-configuration order (`asyncio.gather` preserves task
order); a `RemoteCheckException` becomes the synthetic error response, anything
`build_error_response_from_remote_check_exception` raises propagates. -/
def collectResponsesLoop (outcome : RemotePerspective → CallOutcome) (ct : CheckType)
    (creq : CheckRequest) : List RemotePerspective → ValidityDict → List CheckResponse →
    Except PyErr (List CheckResponse × ValidityDict)
  | [], d, acc => .ok (acc, d)
  | p :: ps, d, acc =>
    match outcome p with
    | .exc =>
      match build_error_response_from_remote_check_exception ⟨ct, p, creq⟩ with
      | .error e => .error e
      | .ok r =>
        collectResponsesLoop outcome ct creq ps (dictSet d p.code (dictGet d p.code || false))
          (acc ++ [r])
    | .ok r =>
      collectResponsesLoop outcome ct creq ps
        (dictSet d p.code (dictGet d p.code || r.check_passed)) (acc ++ [r])

/-- `MpicCoordinator.issue_async_calls_and_collect_responses`. -/
def issue_async_calls_and_collect_responses (outcome : RemotePerspective → CallOutcome)
    (ct : CheckType) (creq : CheckRequest) (perspectives_to_use : List RemotePerspective) :
    Except PyErr (List CheckResponse × ValidityDict) :=
  collectResponsesLoop outcome ct creq perspectives_to_use (dictInit perspectives_to_use) []

/-- `MpicCoordinator.determine_required_quorum_count`. -/
def determine_required_quorum_count
    (orchestration_parameters : Option MpicRequestOrchestrationParameters)
    (perspective_count : Int) : Int :=
  match orchestration_parameters with
  | some o =>
    match o.quorum_count with
    | some q => q
    | none => if perspective_count ≤ 5 then perspective_count - 1 else perspective_count - 2
  | none => if perspective_count ≤ 5 then perspective_count - 1 else perspective_count - 2

/-- `MpicEffectiveOrchestrationParameters {perspective_count, quorum_count, attempt_count}`. -/
structure MpicEffectiveOrchestrationParameters where
  perspective_count : Int
  quorum_count : Int
  attempt_count : Int
  deriving DecidableEq, Repr

/-- `MpicResponse` (CAA and DCV variants merged; `check_type` discriminates and
only the matching parameter echo is populated). -/
structure MpicResponse where
  check_type : CheckType
  domain_or_ip_target : String
  trace_identifier : Option String
  is_valid : Bool
  perspectives : List CheckResponse
  request_orchestration_parameters : Option MpicRequestOrchestrationParameters
  actual_orchestration_parameters : MpicEffectiveOrchestrationParameters
  previous_attempt_results : Option (List (List CheckResponse))
  caa_check_parameters : Option CaaCheckParameters
  dcv_check_parameters : Option DcvCheckParameters
  deriving DecidableEq, Repr

/-- `MpicResponseBuilder.build_response`. -/
def build_response (request : MpicRequest) (perspective_count quorum_count attempts : Int)
    (perspective_responses : List CheckResponse) (is_result_valid : Bool)
    (previous_attempt_results : Option (List (List CheckResponse))) : MpicResponse :=
  { check_type := request.check_type
    domain_or_ip_target := request.domain_or_ip_target
    trace_identifier := request.trace_identifier
    is_valid := is_result_valid
    perspectives := perspective_responses
    request_orchestration_parameters := request.orchestration_parameters
    actual_orchestration_parameters :=
      { perspective_count := perspective_count
        quorum_count := quorum_count
        attempt_count := attempts }
    previous_attempt_results := previous_attempt_results
    caa_check_parameters := request.caa_check_parameters
    dcv_check_parameters := request.dcv_check_parameters }

/-- The cohort handed to attempt `k` by `cycle(perspective_cohorts)`:
attempt 1 gets `cohorts[0]`, attempt `k` gets `cohorts[(k-1) % len(cohorts)]`. -/
def cohortAt (cohorts : List (List RemotePerspective)) (k : Int) : List RemotePerspective :=
  cohorts.getD ((k - 1).toNat % cohorts.length) []

/-- One iteration body of the `coordinate_mpic` attempt loop: issue the calls
for attempt `k`'s cohort, collect the responses, and compute `is_valid_result`
(quorum count, plus the two-RIR requirement on the passing perspectives when
the cohort is larger than 2). -/
def attemptStep (outcome : Int → RemotePerspective → CallOutcome)
    (cohorts : List (List RemotePerspective)) (ct : CheckType) (creq : CheckRequest)
    (quorum_count : Int) (k : Int) : Except PyErr (List CheckResponse × Bool) :=
  let perspectives_to_use := cohortAt cohorts k
  match issue_async_calls_and_collect_responses (outcome k) ct creq perspectives_to_use with
  | .error e => .error e
  | .ok (perspective_responses, validity_per_perspective) =>
    let valid_perspective_count := dictSum validity_per_perspective
    let is_valid_base : Bool := quorum_count ≤ (valid_perspective_count : Int)
    let is_valid_result :=
      if 2 < perspectives_to_use.length then
        let valid_perspectives :=
          perspectives_to_use.filter (fun p => dictGet validity_per_perspective p.code)
        let rir_count := ((valid_perspectives.map (fun p => p.rir)).dedup).length
        decide (2 ≤ rir_count) && is_valid_base
      else is_valid_base
    .ok (perspective_responses, is_valid_result)

/-- The responses of attempt `k` (meaningful whenever the attempt completed
without an uncaught exception). -/
def stepResponses (outcome : Int → RemotePerspective → CallOutcome)
    (cohorts : List (List RemotePerspective)) (ct : CheckType) (creq : CheckRequest)
    (quorum_count : Int) (k : Int) : List CheckResponse :=
  match attemptStep outcome cohorts ct creq quorum_count k with
  | .ok (rs, _) => rs
  | .error _ => []

/-- The `is_valid_result` of attempt `k` (meaningful whenever the attempt
completed without an uncaught exception). -/
def stepValid (outcome : Int → RemotePerspective → CallOutcome)
    (cohorts : List (List RemotePerspective)) (ct : CheckType) (creq : CheckRequest)
    (quorum_count : Int) (k : Int) : Bool :=
  match attemptStep outcome cohorts ct creq quorum_count k with
  | .ok (_, v) => v
  | .error _ => false

/-- The `while attempts <= max_attempts` loop of `coordinate_mpic`, from
attempt `k` on, with the failed attempts accumulated so far in `prev`. The
loop runs while `k <= max_attempts`, i.e. for exactly
`(max_attempts + 1 - k).toNat` more iterations, which is the structural `fuel`
argument (the caller passes exactly that value, so `fuel = 0` is precisely the
loop condition failing). Falling out of the loop (possible when
`max_attempts < 1`) returns Python's implicit `None`; `next` on a cycle of an
empty cohort list raises `StopIteration`. -/
def runAttempts (outcome : Int → RemotePerspective → CallOutcome)
    (cohorts : List (List RemotePerspective)) (ct : CheckType) (creq : CheckRequest)
    (request : MpicRequest) (perspective_count quorum_count max_attempts : Int) :
    Nat → Int → Option (List (List CheckResponse)) → Except PyErr (Option MpicResponse)
  | 0, _, _ => .ok none
  | fuel + 1, k, prev =>
    if cohorts.length = 0 then .error .stopIteration
    else
      match attemptStep outcome cohorts ct creq quorum_count k with
      | .error e => .error e
      | .ok (perspective_responses, is_valid_result) =>
        if is_valid_result || k = max_attempts then
          .ok (some (build_response request perspective_count quorum_count k
            perspective_responses is_valid_result prev))
        else
          runAttempts outcome cohorts ct creq request perspective_count quorum_count
            max_attempts fuel (k + 1) (some (prev.getD [] ++ [perspective_responses]))

/-- `MpicCoordinatorConfiguration`. -/
structure MpicCoordinatorConfiguration where
  target_perspectives : List RemotePerspective
  default_perspective_count : Int
  global_max_attempts : Option Int
  hash_secret : String
  deriving DecidableEq, Repr

/-- The effective perspective count of `coordinate_mpic`: the requested value
when present, else the configured default. -/
def resolvedPerspectiveCount (cfg : MpicCoordinatorConfiguration)
    (request : MpicRequest) : Int :=
  match request.orchestration_parameters with
  | some o =>
    match o.perspective_count with
    | some pc => pc
    | none => cfg.default_perspective_count
  | none => cfg.default_perspective_count

/-- The effective `max_attempts` of `coordinate_mpic`: the requested value,
clamped to `global_max_attempts` when that is configured and smaller, else 1. -/
def resolvedMaxAttempts (cfg : MpicCoordinatorConfiguration)
    (request : MpicRequest) : Int :=
  match request.orchestration_parameters with
  | some o =>
    match o.max_attempts with
    | some ma =>
      match cfg.global_max_attempts with
      | some g => if g < ma then g else ma
      | none => ma
    | none => 1
  | none => 1

/-- `MpicCoordinator.coordinate_mpic`. The cohort construction
(`create_cohorts_of_randomly_selected_perspectives`, whose `CohortCreator`
machinery is not under `src/`) is abstracted as the oracle `cohortsFor` from
`(cohort_size, domain_or_ip_target)` to the cohort list, keeping its
guard `cohort_size <= len(target_perspectives)` (else `ValueError`); the
remote-perspective caller is abstracted as the per-attempt `outcome` oracle. -/
def coordinate_mpic (cfg : MpicCoordinatorConfiguration)
    (cohortsFor : Int → String → List (List RemotePerspective))
    (outcome : Int → RemotePerspective → CallOutcome) (mpic_request : MpicRequest) :
    Except PyErr (Option MpicResponse) :=
  if !(is_request_valid mpic_request cfg.target_perspectives).1 then
    .error .mpicRequestValidationError
  else
    let perspective_count := resolvedPerspectiveCount cfg mpic_request
    if (cfg.target_perspectives.length : Int) < perspective_count then .error .valueError
    else
      let perspective_cohorts := cohortsFor perspective_count mpic_request.domain_or_ip_target
      let quorum_count :=
        determine_required_quorum_count mpic_request.orchestration_parameters perspective_count
      let max_attempts := resolvedMaxAttempts cfg mpic_request
      runAttempts outcome perspective_cohorts mpic_request.check_type
        (checkRequestOf mpic_request) mpic_request perspective_count quorum_count
        max_attempts max_attempts.toNat 1 none

/-! ### Shared concrete instances for theorems and witnesses -/

/-- A perspective in the ARIN region. -/
def perspectiveA : RemotePerspective := ⟨"us-east-1", "arin"⟩

/-- A perspective in the RIPE region. -/
def perspectiveB : RemotePerspective := ⟨"eu-west-1", "ripe"⟩

/-- A minimal passing CAA check response, as a remote perspective might return it. -/
def passingCaaResponse : CheckResponse := .caa { check_passed := true, details := {} }

/-- A minimal failing CAA check response, as a remote perspective might return it. -/
def failingCaaResponse : CheckResponse := .caa { check_passed := false, details := {} }

/-- A two-perspective coordinator configuration. -/
def twoPerspectiveConfig : MpicCoordinatorConfiguration :=
  { target_perspectives := [perspectiveA, perspectiveB]
    default_perspective_count := 2
    global_max_attempts := none
    hash_secret := "secret" }

/-- The CAA record set of the wildcard-preference scenario:
`issue "other-ca.com"` next to `issuewild "my-ca.com"`. -/
def wildcardScenarioRecords : List CaaRecord :=
  [⟨0, "issue", "other-ca.com"⟩, ⟨0, "issuewild", "my-ca.com"⟩]

/-! ### C10 -/

/-- The CONTACT_EMAIL-over-CAA check request of the exhausted-tree-walk
scenario. -/
def contactEmailCaaRequest : DcvCheckRequest :=
  { domain_or_ip_target := "example.com"
    dcv_check_parameters :=
      { validation_method := .contact_email
        dns_record_type := .caa
        challenge_value := "validatecontact@example.com" } }

/-- C10: for a CONTACT_EMAIL (or CONTACT_PHONE) DCV check over CAA records
whose every DNS query up the tree raises `NoAnswer`/`NXDOMAIN`, the tree walk
terminates at the root with no lookup result, evaluating the absent result
raises `AttributeError` (which is outside the caught
`dns.exception.DNSException` class), and `check_dcv` produces no
`DcvCheckResponse` at all. -/
theorem contact_caa_tree_walk_exhaustion_yields_no_response :
    check_dcv latin1Decode (fun _ _ => false) (fun _ => .clientError "ClientError" "")
      (fun _ => .noAnswer) contactEmailCaaRequest = .error .attributeError := rfl

/-! ### C2 -/

/-- A DCV MPIC request (ACME_DNS_01) for the remote-exception scenario. -/
def dcvMpicRequest : MpicRequest :=
  .dcvRequest "example.com" none none
    { validation_method := .acme_dns_01, key_authorization := "token-value" }

/-- The remote-call outcome in which the first perspective's call raises and
the second returns a passing response. -/
def oneExceptionOutcome : Int → RemotePerspective → CallOutcome :=
  fun _ p => if p.code = "us-east-1" then .exc else .ok passingCaaResponse

/-- C2 (code bug): on a DCV MPIC request, a perspective whose remote call
raises does NOT become a synthetic `COORDINATOR_COMMUNICATION_ERROR` response;
instead `build_error_response_from_remote_check_exception` reads the
nonexistent `validation_details` attribute of the flat `DcvCheckParameters`
(`mpic_coordinator.py` line 199) and the whole MPIC request fails with an
uncaught `AttributeError`. -/
theorem dcv_remote_check_exception_crashes_coordinate_mpic :
    coordinate_mpic twoPerspectiveConfig (fun _ _ => [[perspectiveA, perspectiveB]])
      oneExceptionOutcome dcvMpicRequest = .error .attributeError := rfl

/-! ### C3 -/

/-- C3 (counterexample): with the CAA records
`[issue "other-ca.com", issuewild "my-ca.com"]` found for target
`*.example.com` and `caa_domains = ["my-ca.com"]` in effect, but with
`caa_check_parameters` NOT supplied in the request (the domains coming from
the checker's default list), `check_caa` returns `check_passed = false`: the
wildcard marker is only detected inside the `if caa_request.caa_check_parameters:`
block, so the `issue` records are evaluated instead of the `issuewild` ones.
The claim asserts `check_passed = true` regardless of whether
`caa_check_parameters` is supplied. -/
theorem caa_wildcard_ignored_without_parameters :
    (check_caa ["my-ca.com"] ⟨"*.example.com", none⟩
      (fun _ => .answer wildcardScenarioRecords)).check_passed = false := rfl

/-- The CAA domain list actually used by `check_caa`: the request's
`caa_domains` when supplied and nonempty, else the checker's default list. -/
def effectiveCaaDomains (default_caa_domain_list : List String)
    (caa_request : CaaCheckRequest) : List String :=
  match caa_request.caa_check_parameters with
  | some p =>
    match p.caa_domains with
    | some ds => if ds.length > 0 then ds else default_caa_domain_list
    | none => default_caa_domain_list
  | none => default_caa_domain_list

/-- C3 (amended): when `caa_check_parameters` IS supplied, a target with a
leading `*.` whose located record set contains at least one `issuewild` record
and no unknown-critical record is evaluated against the `issuewild` values
only (the `issue` records are ignored: the result is
`do_caa_values_permit_issuance` of the `issuewild` values alone). -/
theorem caa_wildcard_uses_issuewild_when_parameters_present
    (default_caa_domain_list : List String) (caa_request : CaaCheckRequest)
    (resolve : List String → CaaQueryResult) (rrset : List CaaRecord)
    (domain : List String) (params : CaaCheckParameters)
    (hp : caa_request.caa_check_parameters = some params)
    (hw : strStartsWith caa_request.domain_or_ip_target "*." = true)
    (hfind : find_caa_records_and_domain resolve
      (nameLabels (prepare_target_for_lookup caa_request.domain_or_ip_target))
      = .ok (some rrset, domain))
    (hwild : (scanCaaRecords rrset).2.1 ≠ [])
    (hcrit : (scanCaaRecords rrset).2.2 = false) :
    (check_caa default_caa_domain_list caa_request resolve).check_passed
      = do_caa_values_permit_issuance (scanCaaRecords rrset).2.1
          (effectiveCaaDomains default_caa_domain_list caa_request) := by
  obtain ⟨tgt, cp⟩ := caa_request
  simp only [MpicRequest.caa_check_parameters, CaaCheckRequest.caa_check_parameters] at hp
  subst hp
  simp only [CaaCheckRequest.domain_or_ip_target] at hw hfind
  have hlen : (scanCaaRecords rrset).2.1.length > 0 := by
    cases h : (scanCaaRecords rrset).2.1 with
    | nil => exact absurd h hwild
    | cons a l => simp [h]
  simp only [check_caa, effectiveCaaDomains, hfind, hw, is_valid_for_issuance, hcrit,
    Bool.true_and, hlen, if_true, Bool.false_eq_true, if_false, gt_iff_lt,
    decide_eq_true_eq]

/-- C3 (witness for the amended claim): the concrete wildcard-preference
scenario with `caa_check_parameters` supplied passes. -/
theorem caa_wildcard_uses_issuewild_when_parameters_present_witness :
    (check_caa ["default-ca.com"] ⟨"*.example.com", some ⟨some ["my-ca.com"]⟩⟩
      (fun _ => .answer wildcardScenarioRecords)).check_passed = true := by
  have h := caa_wildcard_uses_issuewild_when_parameters_present
    ["default-ca.com"] ⟨"*.example.com", some ⟨some ["my-ca.com"]⟩⟩
    (fun _ => .answer wildcardScenarioRecords) wildcardScenarioRecords
    (nameLabels "*.example.com") ⟨some ["my-ca.com"]⟩ rfl (by decide) rfl
    (by decide) (by decide)
  exact h.trans (by decide)

/-! ### C4 -/

/-- The `has_unknown_critical_flags` result of the partition loop holds exactly
when some record's lowercase tag is neither `issue` nor `issuewild`, is outside
the critical-bit allow-list, and has the critical bit (0x80) set. -/
theorem scanCaaRecords_crit_iff (rrset : List CaaRecord) :
    (scanCaaRecords rrset).2.2 = true ↔
      ∃ r ∈ rrset, strLower r.tag ≠ "issue" ∧ strLower r.tag ≠ "issuewild" ∧
        (["contactemail", "contactphone", "issuemail", "iodef"].contains (strLower r.tag))
          = false ∧
        r.flags &&& 128 ≠ 0 := by
  induction rrset with
  | nil => simp [scanCaaRecords]
  | cons r rest ih =>
    simp only [scanCaaRecords]
    split_ifs with h1 h2 h3
    · simp only [ih, List.mem_cons]
      constructor
      · rintro ⟨x, hx, hc⟩
        exact ⟨x, Or.inr hx, hc⟩
      · rintro ⟨x, hx | hx, hc⟩
        · rw [hx] at hc
          exact absurd h1 hc.1
        · exact ⟨x, hx, hc⟩
    · simp only [ih, List.mem_cons]
      constructor
      · rintro ⟨x, hx, hc⟩
        exact ⟨x, Or.inr hx, hc⟩
      · rintro ⟨x, hx | hx, hc⟩
        · rw [hx] at hc
          exact absurd h2 hc.2.1
        · exact ⟨x, hx, hc⟩
    · simp only [Bool.and_eq_true, Bool.not_eq_true', decide_eq_true_eq] at h3
      simp only [true_iff]
      exact ⟨r, List.mem_cons_self r rest, h1, h2, h3.1, h3.2⟩
    · simp only [Bool.and_eq_true, Bool.not_eq_true', decide_eq_true_eq, not_and] at h3
      simp only [ih, List.mem_cons]
      constructor
      · rintro ⟨x, hx, hc⟩
        exact ⟨x, Or.inr hx, hc⟩
      · rintro ⟨x, hx | hx, hc⟩
        · rw [hx] at hc
          exact absurd hc.2.2.2 (h3 hc.2.2.1)
        · exact ⟨x, hx, hc⟩

/-- C4: for every CAA record set, a record whose lowercase tag is neither
`issue` nor `issuewild`, is outside the allow-list
`{contactemail, contactphone, issuemail, iodef}`, and has the critical bit
(0x80) set forces `is_valid_for_issuance` to deny; and a lone record with the
critical bit set whose lowercase tag IS allow-listed (e.g. `iodef`) does not by
itself cause denial. -/
theorem caa_critical_flag_handling (caa_domains : List String) (is_wc_domain : Bool)
    (rrset : List CaaRecord) :
    ((∃ r ∈ rrset, strLower r.tag ≠ "issue" ∧ strLower r.tag ≠ "issuewild" ∧
        (["contactemail", "contactphone", "issuemail", "iodef"].contains (strLower r.tag))
          = false ∧
        r.flags &&& 128 ≠ 0) →
      is_valid_for_issuance caa_domains is_wc_domain rrset = false)
    ∧ (∀ (flags : Nat) (tag value : String),
        (["contactemail", "contactphone", "issuemail", "iodef"].contains (strLower tag))
          = true →
        is_valid_for_issuance caa_domains is_wc_domain [⟨flags, tag, value⟩] = true) := by
  constructor
  · intro hex
    have hcrit : (scanCaaRecords rrset).2.2 = true := (scanCaaRecords_crit_iff rrset).mpr hex
    simp [is_valid_for_issuance, hcrit]
  · intro flags tag value h
    have hm : strLower tag ∈ ["contactemail", "contactphone", "issuemail", "iodef"] := by
      simpa using h
    simp only [List.mem_cons, List.not_mem_nil, or_false] at hm
    rcases hm with h' | h' | h' | h' <;>
      simp [is_valid_for_issuance, scanCaaRecords, h']

/-- C4 (witness): a critical-bit record with unknown tag `unknown` denies; a
lone critical-bit `iodef` record allows. -/
theorem caa_critical_flag_handling_witness :
    is_valid_for_issuance ["my-ca.com"] false [⟨128, "unknown", "v"⟩] = false ∧
    is_valid_for_issuance ["my-ca.com"] false
      [⟨128, "iodef", "mailto:security@example.com"⟩] = true :=
  ⟨(caa_critical_flag_handling ["my-ca.com"] false [⟨128, "unknown", "v"⟩]).1
      ⟨⟨128, "unknown", "v"⟩, by decide, by decide, by decide, by decide, by decide⟩,
    (caa_critical_flag_handling ["my-ca.com"] false
      [⟨128, "iodef", "mailto:security@example.com"⟩]).2 128 "iodef"
      "mailto:security@example.com" (by decide)⟩

/-! ### C5 -/

/-- C5: when `orchestration_parameters` carries a `quorum_count` and a
`perspective_count` that passed perspective-count validation, the request is
valid iff `perspective_count - 1 <= quorum_count <= perspective_count` for
`perspective_count <= 5`, and
`perspective_count - 2 <= quorum_count <= perspective_count` for
`perspective_count >= 6`; any violation makes the issue list exactly
`[INVALID_QUORUM_COUNT]` (so `is_request_valid` returns false). -/
theorem quorum_count_validation_range (known : List RemotePerspective)
    (mpic_request : MpicRequest) (o : MpicRequestOrchestrationParameters) (pc qc : Int)
    (ho : mpic_request.orchestration_parameters = some o)
    (hpc : o.perspective_count = some pc)
    (hqc : o.quorum_count = some qc)
    (hvalidpc : is_requested_perspective_count_valid pc known = true) :
    ((is_request_valid mpic_request known).1 = true ↔
      ((pc ≤ 5 ∧ pc - 1 ≤ qc ∧ qc ≤ pc) ∨ (6 ≤ pc ∧ pc - 2 ≤ qc ∧ qc ≤ pc)))
    ∧ (¬((pc ≤ 5 ∧ pc - 1 ≤ qc ∧ qc ≤ pc) ∨ (6 ≤ pc ∧ pc - 2 ≤ qc ∧ qc ≤ pc)) →
        (is_request_valid mpic_request known).2 = [.invalid_quorum_count qc]) := by
  have h2pc : 2 ≤ pc := by
    simp only [is_requested_perspective_count_valid, Bool.and_eq_true, decide_eq_true_eq]
      at hvalidpc
    exact hvalidpc.1
  have hquorum : quorumIsValid pc qc = true ↔
      ((pc ≤ 5 ∧ pc - 1 ≤ qc ∧ qc ≤ pc) ∨ (6 ≤ pc ∧ pc - 2 ≤ qc ∧ qc ≤ pc)) := by
    simp only [quorumIsValid, Bool.or_eq_true, Bool.and_eq_true, decide_eq_true_eq]
    omega
  refine ⟨?_, ?_⟩
  · rw [← hquorum]
    simp only [is_request_valid, ho, hpc, hqc, hvalidpc, if_true, validate_quorum_count]
    by_cases hq : quorumIsValid pc qc <;> simp [hq]
  · intro hbad
    rw [← hquorum] at hbad
    simp only [is_request_valid, ho, hpc, hqc, hvalidpc, if_true, validate_quorum_count]
    simp [hbad]

/-- C5 (witness): `perspective_count = 2` with `quorum_count = 1` is valid. -/
theorem quorum_count_validation_range_witness :
    (is_request_valid
      (.caaRequest "example.com" none (some ⟨some 2, some 1, none⟩) none)
      [perspectiveA, perspectiveB]).1 = true := by
  have h := quorum_count_validation_range [perspectiveA, perspectiveB]
    (.caaRequest "example.com" none (some ⟨some 2, some 1, none⟩) none)
    ⟨some 2, some 1, none⟩ 2 1 rfl rfl rfl (by decide)
  exact h.1.mpr (Or.inl (by norm_num))

/-! ### C6 -/

/-- C6: for an ACME_HTTP_01 check whose HTTP fetch returns status 200,
`check_passed` is true iff the whitespace-stripped decoded body prefix is
exactly the `key_authorization`; any difference (for instance extra content
surrounding the token) makes it false. -/
theorem acme_http_01_requires_exact_stripped_match
    (decode : List Nat → String) (regexSearch : String → String → Bool)
    (httpGet : String → HttpFetchOutcome) (request : DcvCheckRequest)
    (response : HttpResponse)
    (hm : request.dcv_check_parameters.validation_method = .acme_http_01)
    (hresp : httpGet ("http://" ++ request.domain_or_ip_target ++ "/" ++ wellKnownAcmePath
      ++ "/" ++ request.dcv_check_parameters.token) = .ok response)
    (h200 : response.status = 200) :
    (perform_http_based_validation decode regexSearch httpGet request).check_passed = true ↔
      strStrip (decode (response.body.take
        (max 100 request.dcv_check_parameters.key_authorization.length)))
        = request.dcv_check_parameters.key_authorization := by
  have hnw : ¬request.dcv_check_parameters.validation_method = .website_change := by
    rw [hm]; intro h; cases h
  simp [perform_http_based_validation, hm, hnw, hresp, evaluate_http_lookup_response, h200,
    DcvCheckResponse.check_passed, beq_iff_eq]
  exact eq_comm

/-- The ACME_HTTP_01 request of the extra-content scenario. -/
def acmeHttpRequest : DcvCheckRequest :=
  { domain_or_ip_target := "example.com"
    dcv_check_parameters :=
      { validation_method := .acme_http_01
        token := "token-111"
        key_authorization := "challenge_111" } }

/-- A 200 response whose body surrounds the token with extra content. -/
def extraContentHttpResponse : HttpResponse :=
  { status := 200, reason := "OK", history := []
    body := "eXtRaStUfFchallenge_111MoReStUfF".data.map Char.toNat }

/-- A 200 response whose body is the token surrounded only by whitespace. -/
def paddedTokenHttpResponse : HttpResponse :=
  { status := 200, reason := "OK", history := []
    body := "  challenge_111 ".data.map Char.toNat }

/-- C6 (witness): with key authorization `challenge_111`, the body
`eXtRaStUfFchallenge_111MoReStUfF` fails and the body `  challenge_111 `
(whitespace only around the token) passes. -/
theorem acme_http_01_requires_exact_stripped_match_witness :
    (perform_http_based_validation latin1Decode (fun _ _ => false)
      (fun _ => .ok extraContentHttpResponse) acmeHttpRequest).check_passed = false ∧
    (perform_http_based_validation latin1Decode (fun _ _ => false)
      (fun _ => .ok paddedTokenHttpResponse) acmeHttpRequest).check_passed = true := by
  constructor
  · have h := acme_http_01_requires_exact_stripped_match latin1Decode (fun _ _ => false)
      (fun _ => .ok extraContentHttpResponse) acmeHttpRequest extraContentHttpResponse
      rfl rfl rfl
    exact Bool.eq_false_iff.mpr (fun htrue => absurd (h.mp htrue) (by decide))
  · have h := acme_http_01_requires_exact_stripped_match latin1Decode (fun _ _ => false)
      (fun _ => .ok paddedTokenHttpResponse) acmeHttpRequest paddedTokenHttpResponse
      rfl rfl rfl
    exact h.mpr (by decide)

/-! ### C7 -/

/-- C7: on a 200 response, the checker reads the body prefix of at most
`max(100, len(expected_content))` bytes, and `details.response_page` is the
base64 encoding of exactly the bytes read. -/
theorem http_response_page_is_bounded_read (decode : List Nat → String)
    (regexSearch : String → String → Bool) (dcv_check_request : DcvCheckRequest)
    (dcv_check_response : DcvCheckResponse) (lookup_response : HttpResponse)
    (target_url challenge_value : String)
    (h200 : lookup_response.status = 200) :
    (evaluate_http_lookup_response decode regexSearch dcv_check_request dcv_check_response
        lookup_response target_url challenge_value).details.response_page
      = some (base64Encode (lookup_response.body.take (max 100 challenge_value.length)))
    ∧ (lookup_response.body.take (max 100 challenge_value.length)).length
        ≤ max 100 challenge_value.length := by
  constructor
  · simp [evaluate_http_lookup_response, h200]
  · rw [List.length_take]
    exact min_le_left _ _

/-- The 1000-byte body of the bounded-read scenario. -/
def thousandByteBody : List Nat := (List.range 1000).map (fun i => i % 256)

set_option maxRecDepth 4000 in
/-- C7 (witness): a 1000-byte body with a 10-byte challenge yields a
`response_page` that is the base64 encoding of exactly the first 100 bytes. -/
theorem http_response_page_is_bounded_read_witness :
    (evaluate_http_lookup_response latin1Decode (fun _ _ => false) acmeHttpRequest
        (create_empty_check_response .acme_http_01)
        { status := 200, reason := "OK", history := [], body := thousandByteBody }
        "http://example.com/" "abcdefghij").details.response_page
      = some (base64Encode (thousandByteBody.take (max 100 ("abcdefghij" : String).length)))
    ∧ thousandByteBody.take (max 100 ("abcdefghij" : String).length)
        = (List.range 100).map (fun i => i % 256) := by
  refine ⟨?_, by decide⟩
  exact (http_response_page_is_bounded_read latin1Decode (fun _ _ => false) acmeHttpRequest
    (create_empty_check_response .acme_http_01)
    { status := 200, reason := "OK", history := [], body := thousandByteBody }
    "http://example.com/" "abcdefghij" rfl).1

/-! ### C8 -/

/-- The record strings as `evaluate_dns_lookup_response` compares them: both
sides are lowercased first when the record type is CNAME. -/
def dnsComparedRecords (request : DcvCheckRequest) (strs : List String) : List String :=
  if request.dcv_check_parameters.dns_record_type = .cname then strs.map strLower else strs

/-- The expected content as `evaluate_dns_lookup_response` compares it:
lowercased first when the record type is CNAME. -/
def dnsComparedExpected (request : DcvCheckRequest) : String :=
  if request.dcv_check_parameters.dns_record_type = .cname then
    strLower (dnsExpectedAndExact request).1
  else (dnsExpectedAndExact request).1

/-- The response `perform_general_dns_validation` produces when the lookup
found an answer whose record extraction succeeded. -/
def dnsEvaluatedResponse (request : DcvCheckRequest) (a : DnsAnswer)
    (strs : List String) : DcvCheckResponse :=
  { perspective_code := none
    check_passed :=
      if (dnsExpectedAndExact request).2 then
        (dnsComparedRecords request strs).contains (dnsComparedExpected request)
      else
        (dnsComparedRecords request strs).any
          (fun record => strContains record (dnsComparedExpected request))
    errors := none
    details := { records_seen := some strs
                 response_code := some a.rcode
                 ad_flag := some (a.flags &&& dnsFlagAD = dnsFlagAD)
                 found_at := some a.qname } }

/-- C8: for a DNS-based DCV check that obtains a lookup answer (and whose
record extraction produces the strings `strs`), the verdict is: exact
membership of the expected content among the extracted strings when the
method is ACME_DNS_01 or `require_exact_match` is set, else substring
containment in at least one extracted string — with both sides lowercased
first when the record type is CNAME. -/
theorem dns_validation_matching_semantics (resolve : List String → DnsQueryResult)
    (request : DcvCheckRequest) (a : DnsAnswer) (strs : List String)
    (hlookup : perform_dns_resolution resolve (nameToResolve request)
      request.dcv_check_parameters.validation_method
      request.dcv_check_parameters.dns_record_type = .ok (some a))
    (hextract : extractRecordsAsStrings request.dcv_check_parameters.validation_method
      request.dcv_check_parameters.dns_record_type a.answer = .ok strs) :
    perform_general_dns_validation resolve request = .ok (dnsEvaluatedResponse request a strs)
    ∧ ((dnsEvaluatedResponse request a strs).check_passed = true ↔
        if request.dcv_check_parameters.validation_method = .acme_dns_01
            ∨ request.dcv_check_parameters.require_exact_match = true then
          dnsComparedExpected request ∈ dnsComparedRecords request strs
        else
          ∃ s ∈ dnsComparedRecords request strs,
            strContains s (dnsComparedExpected request) = true) := by
  constructor
  · simp only [perform_general_dns_validation, hlookup, bind, Except.bind,
      evaluateDnsLookupOpt, evaluate_dns_lookup_response, hextract, dnsEvaluatedResponse,
      dnsComparedRecords, dnsComparedExpected, create_empty_check_response]
  · simp only [dnsEvaluatedResponse, DcvCheckResponse.check_passed]
    by_cases hvm : request.dcv_check_parameters.validation_method = .acme_dns_01
    · simp [dnsExpectedAndExact, hvm, List.elem_iff]
    · cases hre : request.dcv_check_parameters.require_exact_match with
      | true => simp [dnsExpectedAndExact, hvm, hre, List.elem_iff]
      | false => simp [dnsExpectedAndExact, hvm, hre, List.any_eq_true]

/-- The DNS_CHANGE/TXT request of the substring-match scenario
(`require_exact_match` left at its default `false`). -/
def dnsChangeRequest : DcvCheckRequest :=
  { domain_or_ip_target := "example.com"
    dcv_check_parameters :=
      { validation_method := .dns_change
        dns_record_type := .txt
        challenge_value := "c12"
        dns_name_prefix_opt := some "_dnsauth" } }

/-- A TXT answer whose single record renders as `"abc123"`. -/
def txtAnswerABC : DnsAnswer :=
  { answer := [{ rdtype := .txt, records := [{ text := "\"abc123\"" }] }]
    rcode := 0
    flags := 0
    qname := "_dnsauth.example.com" }

/-- C8 (witness): a DNS_CHANGE check with challenge `c12` against the TXT
record `abc123` passes by substring containment. -/
theorem dns_validation_matching_semantics_witness :
    perform_general_dns_validation (fun _ => .answer txtAnswerABC) dnsChangeRequest
      = .ok (dnsEvaluatedResponse dnsChangeRequest txtAnswerABC ["abc123"])
    ∧ (dnsEvaluatedResponse dnsChangeRequest txtAnswerABC ["abc123"]).check_passed = true := by
  have h := dns_validation_matching_semantics (fun _ => .answer txtAnswerABC)
    dnsChangeRequest txtAnswerABC ["abc123"] rfl rfl
  exact ⟨h.1, h.2.mpr (by decide)⟩

/-! ### C1 and C9: characterising the attempt loop -/

/-- The response contributed by perspective `p` to the collected response list:
the remote response when the call returned, else the synthetic error response
(unreachable filler in the case where building the synthetic response itself
raises, since the collection loop then aborts instead of contributing). -/
def respOf (outcome : RemotePerspective → CallOutcome) (ct : CheckType) (creq : CheckRequest)
    (p : RemotePerspective) : CheckResponse :=
  match outcome p with
  | .ok r => r
  | .exc =>
    match build_error_response_from_remote_check_exception ⟨ct, p, creq⟩ with
    | .ok r => r
    | .error _ => .caa { check_passed := false, details := {} }

/-- Whether perspective `p`'s contributed response passed. -/
def respPassed (outcome : RemotePerspective → CallOutcome) (ct : CheckType)
    (creq : CheckRequest) (p : RemotePerspective) : Bool :=
  (respOf outcome ct creq p).check_passed

/-- Setting a key present at the head of the dictionary. -/
theorem dictSet_head (k : String) (v0 v : Bool) (rest : ValidityDict) :
    dictSet ((k, v0) :: rest) k v = (k, v) :: rest := by
  simp [dictSet]

/-- `dictSet` passes over a block of entries that do not hold the key. -/
theorem dictSet_append_of_not_mem (d1 d2 : ValidityDict) (k : String) (v : Bool)
    (h : k ∉ d1.map Prod.fst) : dictSet (d1 ++ d2) k v = d1 ++ dictSet d2 k v := by
  induction d1 with
  | nil => simp
  | cons e rest ih =>
    obtain ⟨e1, e2⟩ := e
    simp only [List.map_cons, List.mem_cons, not_or] at h
    have hne : ¬(e1 = k) := fun he => h.1 (by simp [he])
    simp only [List.cons_append, dictSet, hne, if_false, List.append_eq]
    rw [ih h.2]

/-- `dictGet` passes over a block of entries that do not hold the key. -/
theorem dictGet_append_of_not_mem (d1 d2 : ValidityDict) (k : String)
    (h : k ∉ d1.map Prod.fst) : dictGet (d1 ++ d2) k = dictGet d2 k := by
  induction d1 with
  | nil => simp
  | cons e rest ih =>
    obtain ⟨e1, e2⟩ := e
    simp only [List.map_cons, List.mem_cons, not_or] at h
    have hne : ¬(e1 = k) := fun he => h.1 (by simp [he])
    simp only [List.cons_append, dictGet, hne, if_false, List.append_eq]
    exact ih h.2

/-- The dict-initialisation fold, started from any block the initialised codes
avoid, appends one `false` entry per perspective (in order) when the codes are
distinct. -/
theorem dictInit_go (ps : List RemotePerspective) :
    ∀ d : ValidityDict, (∀ p ∈ ps, p.code ∉ d.map Prod.fst) →
    (ps.map (fun p => p.code)).Nodup →
    ps.foldl (fun d p => dictSet d p.code false) d = d ++ ps.map (fun p => (p.code, false)) := by
  induction ps with
  | nil => intro d _ _; simp
  | cons p rest ih =>
    intro d hd hnodup
    simp only [List.map_cons, List.nodup_cons] at hnodup
    have hset : dictSet d p.code false = d ++ [(p.code, false)] := by
      have := dictSet_append_of_not_mem d [] p.code false (hd p (List.mem_cons_self p rest))
      simpa using this
    simp only [List.foldl_cons, hset]
    rw [ih (d ++ [(p.code, false)]) ?_ hnodup.2]
    · simp
    · intro q hq
      simp only [List.map_append, List.mem_append, List.map_cons, List.map_nil,
        List.mem_singleton, not_or]
      refine ⟨hd q (List.mem_cons_of_mem p hq), ?_⟩
      intro hqe
      exact hnodup.1 (hqe ▸ List.mem_map_of_mem (fun p => p.code) hq)

/-- `dictInit` on distinct codes is one `false` entry per perspective. -/
theorem dictInit_eq (ps : List RemotePerspective)
    (hnodup : (ps.map (fun p => p.code)).Nodup) :
    dictInit ps = ps.map (fun p => (p.code, false)) := by
  simpa using dictInit_go ps [] (by simp) hnodup

/-- The collection loop over perspectives with distinct codes: starting from a
dictionary whose tail block holds exactly the pending perspectives' `false`
entries, it appends each perspective's contributed response in order and
records each perspective's pass bit. -/
theorem collectResponsesLoop_ok_of_nodup (outcome : RemotePerspective → CallOutcome)
    (ct : CheckType) (creq : CheckRequest) :
    ∀ (ps : List RemotePerspective) (done : ValidityDict) (acc rs : List CheckResponse)
      (d' : ValidityDict),
    (∀ p ∈ ps, p.code ∉ done.map Prod.fst) → (ps.map (fun p => p.code)).Nodup →
    collectResponsesLoop outcome ct creq ps (done ++ ps.map (fun p => (p.code, false))) acc
      = .ok (rs, d') →
    rs = acc ++ ps.map (respOf outcome ct creq) ∧
    d' = done ++ ps.map (fun p => (p.code, respPassed outcome ct creq p)) := by
  intro ps
  induction ps with
  | nil =>
    intro done acc rs d' _ _ h
    simp only [List.map_nil, List.append_nil, collectResponsesLoop, Except.ok.injEq,
      Prod.mk.injEq] at h
    simp [h.1.symm, h.2.symm]
  | cons p rest ih =>
    intro done acc rs d' hdone hnodup h
    simp only [List.map_cons, List.nodup_cons] at hnodup
    have hpcode : p.code ∉ done.map Prod.fst := hdone p (List.mem_cons_self p rest)
    have hget : dictGet (done ++ (p.code, false) :: rest.map (fun q => (q.code, false)))
        p.code = false := by
      rw [dictGet_append_of_not_mem _ _ _ hpcode]
      simp [dictGet]
    have hdone' : ∀ q ∈ rest, q.code ∉ (done ++ [(p.code, respPassed outcome ct creq p)]).map
        Prod.fst := by
      intro q hq
      simp only [List.map_append, List.mem_append, List.map_cons, List.map_nil,
        List.mem_singleton, not_or]
      refine ⟨hdone q (List.mem_cons_of_mem p hq), ?_⟩
      intro hqe
      exact hnodup.1 (hqe ▸ List.mem_map_of_mem (fun p => p.code) hq)
    have hsetshape : ∀ v : Bool,
        dictSet (done ++ (p.code, false) :: rest.map (fun q => (q.code, false))) p.code v
          = (done ++ [(p.code, v)]) ++ rest.map (fun q => (q.code, false)) := by
      intro v
      rw [dictSet_append_of_not_mem _ _ _ _ hpcode, dictSet_head]
      simp
    simp only [List.map_cons, List.cons_append] at h ⊢
    rw [show done ++ (p.code, false) :: rest.map (fun q => (q.code, false))
        = done ++ ((p.code, false) :: rest.map (fun q => (q.code, false))) from rfl] at h
    simp only [collectResponsesLoop] at h
    cases hout : outcome p with
    | ok r =>
      simp only [hout] at h
      rw [hget, Bool.false_or] at h
      rw [hsetshape r.check_passed] at h
      have hresp : respOf outcome ct creq p = r := by simp [respOf, hout]
      have hpass : respPassed outcome ct creq p = r.check_passed := by
        simp [respPassed, hresp]
      obtain ⟨h1, h2⟩ := ih (done ++ [(p.code, respPassed outcome ct creq p)]) (acc ++ [r])
        rs d' hdone' hnodup.2 (by rw [hpass]; exact h)
      constructor
      · rw [h1, hresp]
        simp
      · rw [h2]
        simp
    | exc =>
      simp only [hout] at h
      cases ct with
      | dcv =>
        simp [build_error_response_from_remote_check_exception] at h
      | caa =>
        simp only [build_error_response_from_remote_check_exception] at h
        rw [hget, Bool.or_false] at h
        rw [hsetshape false] at h
        have hresp : respOf outcome CheckType.caa creq p
            = .caa { perspective_code := some p.code
                     check_passed := false
                     errors := some [⟨coordinatorCommunicationErrorKey,
                       coordinatorCommunicationErrorMessage⟩]
                     details := { caa_record_present := none } } := by
          simp [respOf, hout, build_error_response_from_remote_check_exception]
        have hpass : respPassed outcome CheckType.caa creq p = false := by
          simp [respPassed, hresp, CheckResponse.check_passed]
        obtain ⟨h1, h2⟩ := ih (done ++ [(p.code, respPassed outcome CheckType.caa creq p)])
          (acc ++ [.caa { perspective_code := some p.code
                          check_passed := false
                          errors := some [⟨coordinatorCommunicationErrorKey,
                            coordinatorCommunicationErrorMessage⟩]
                          details := { caa_record_present := none } }])
          rs d' hdone' hnodup.2 (by rw [hpass]; exact h)
      
        constructor
        · rw [h1, hresp]
          simp
        · rw [h2]
          simp

/-- `issue_async_calls_and_collect_responses` on a cohort with distinct codes:
one contributed response per perspective, in cohort order, and one dictionary
entry per perspective holding its pass bit. -/
theorem issue_calls_ok_of_nodup (outcome : RemotePerspective → CallOutcome)
    (ct : CheckType) (creq : CheckRequest) (ps : List RemotePerspective)
    (rs : List CheckResponse) (d' : ValidityDict)
    (hnodup : (ps.map (fun p => p.code)).Nodup)
    (h : issue_async_calls_and_collect_responses outcome ct creq ps = .ok (rs, d')) :
    rs = ps.map (respOf outcome ct creq) ∧
    d' = ps.map (fun p => (p.code, respPassed outcome ct creq p)) := by
  rw [issue_async_calls_and_collect_responses, dictInit_eq ps hnodup] at h
  have := collectResponsesLoop_ok_of_nodup outcome ct creq ps [] [] rs d' (by simp) hnodup
    (by simpa using h)
  simpa using this

/-- `sum(validity.values())` over one entry per perspective counts the
perspectives whose bit is set. -/
theorem dictSum_map (ps : List RemotePerspective) (g : RemotePerspective → Bool) :
    dictSum (ps.map (fun p => (p.code, g p))) = (ps.filter g).length := by
  induction ps with
  | nil => simp [dictSum]
  | cons p rest ih =>
    cases hg : g p with
    | true => simp [dictSum, List.filter, hg, ← ih, dictSum]
    | false => simp [dictSum, List.filter, hg, ← ih, dictSum]

/-- Reading a perspective's entry from the per-perspective dictionary (codes
distinct) returns its bit. -/
theorem dictGet_map_self (ps : List RemotePerspective) (g : RemotePerspective → Bool)
    (hnodup : (ps.map (fun p => p.code)).Nodup) (p : RemotePerspective) (hp : p ∈ ps) :
    dictGet (ps.map (fun q => (q.code, g q))) p.code = g p := by
  induction ps with
  | nil => cases hp
  | cons q rest ih =>
    simp only [List.map_cons, List.nodup_cons] at hnodup
    rcases List.mem_cons.mp hp with hpq | hpr
    · subst hpq
      simp [dictGet]
    · have hne : ¬(q.code = p.code) := by
        intro he
        exact hnodup.1 (he ▸ List.mem_map_of_mem (fun p => p.code) hpr)
      simp only [List.map_cons, dictGet, hne, if_false]
      exact ih hnodup.2 hpr

/-- Filtering a cohort by the final dictionary (codes distinct) filters it by
each perspective's own pass bit. -/
theorem filter_dictGet_map (ps : List RemotePerspective) (g : RemotePerspective → Bool)
    (hnodup : (ps.map (fun p => p.code)).Nodup) :
    ps.filter (fun p => dictGet (ps.map (fun q => (q.code, g q))) p.code) = ps.filter g :=
  List.filter_congr (fun p hp => by rw [dictGet_map_self ps g hnodup p hp])

/-- The number of passing responses in a response list. -/
def countPassing (rs : List CheckResponse) : Nat :=
  (rs.filter (fun r => r.check_passed)).length

/-- The cohort members whose paired response passed. -/
def passingPerspectives (cohort : List RemotePerspective) (rs : List CheckResponse) :
    List RemotePerspective :=
  ((cohort.zip rs).filter (fun pr => pr.2.check_passed)).map (fun pr => pr.1)

/-- Counting passing responses over a per-perspective response list. -/
theorem countPassing_map (ps : List RemotePerspective) (f : RemotePerspective → CheckResponse) :
    countPassing (ps.map f) = (ps.filter (fun p => (f p).check_passed)).length := by
  induction ps with
  | nil => simp [countPassing]
  | cons p rest ih =>
    cases hf : (f p).check_passed with
    | true => simp [countPassing, List.filter, hf, ← ih, countPassing]
    | false => simp [countPassing, List.filter, hf, ← ih, countPassing]

/-- The passing perspectives of a per-perspective response list are the
perspectives whose own response passed. -/
theorem passingPerspectives_map (ps : List RemotePerspective)
    (f : RemotePerspective → CheckResponse) :
    passingPerspectives ps (ps.map f) = ps.filter (fun p => (f p).check_passed) := by
  induction ps with
  | nil => simp [passingPerspectives]
  | cons p rest ih =>
    cases hf : (f p).check_passed with
    | true => simp [passingPerspectives, List.zip, List.filter, hf, ← ih, passingPerspectives]
    | false => simp [passingPerspectives, List.zip, List.filter, hf, ← ih, passingPerspectives]

/-- What a successful attempt guarantees (cohort codes distinct): its
responses are the per-perspective contributed responses in cohort order, and a
`true` validity verdict means the quorum count was met and, for cohorts larger
than 2, that the passing perspectives span at least two RIRs. -/
theorem attemptStep_ok_char (outcome : Int → RemotePerspective → CallOutcome)
    (cohorts : List (List RemotePerspective)) (ct : CheckType) (creq : CheckRequest)
    (quorum_count : Int) (k : Int) (rs : List CheckResponse) (v : Bool)
    (hnodup : ((cohortAt cohorts k).map (fun p => p.code)).Nodup)
    (h : attemptStep outcome cohorts ct creq quorum_count k = .ok (rs, v)) :
    rs = (cohortAt cohorts k).map (respOf (outcome k) ct creq) ∧
    (v = true →
      quorum_count ≤ (countPassing rs : Int) ∧
      (2 < (cohortAt cohorts k).length →
        2 ≤ (((passingPerspectives (cohortAt cohorts k) rs).map (fun p => p.rir)).dedup).length)) := by
  rw [attemptStep] at h
  cases hcall : issue_async_calls_and_collect_responses (outcome k) ct creq
      (cohortAt cohorts k) with
  | error e => rw [hcall] at h; cases h
  | ok rsd =>
    obtain ⟨rs0, d⟩ := rsd
    rw [hcall] at h
    simp only [Except.ok.injEq, Prod.mk.injEq] at h
    obtain ⟨hrs, hv⟩ := h
    obtain ⟨hrs0, hd⟩ := issue_calls_ok_of_nodup (outcome k) ct creq (cohortAt cohorts k)
      rs0 d hnodup hcall
    subst hrs hrs0 hd
    refine ⟨rfl, ?_⟩
    intro hvtrue
    rw [← hv] at hvtrue
    have hsum : dictSum ((cohortAt cohorts k).map
        (fun p => (p.code, respPassed (outcome k) ct creq p)))
        = ((cohortAt cohorts k).filter (respPassed (outcome k) ct creq)).length :=
      dictSum_map _ _
    have hfilter : (cohortAt cohorts k).filter
        (fun p => dictGet ((cohortAt cohorts k).map
          (fun q => (q.code, respPassed (outcome k) ct creq q))) p.code)
        = (cohortAt cohorts k).filter (respPassed (outcome k) ct creq) :=
      filter_dictGet_map _ _ hnodup
    have hcount : countPassing ((cohortAt cohorts k).map (respOf (outcome k) ct creq))
        = ((cohortAt cohorts k).filter (respPassed (outcome k) ct creq)).length :=
      countPassing_map _ _
    have hpassing : passingPerspectives (cohortAt cohorts k)
        ((cohortAt cohorts k).map (respOf (outcome k) ct creq))
        = (cohortAt cohorts k).filter (respPassed (outcome k) ct creq) :=
      passingPerspectives_map _ _
    by_cases hlen : 2 < (cohortAt cohorts k).length
    · simp only [hlen, if_true, Bool.and_eq_true, decide_eq_true_eq] at hvtrue
      obtain ⟨hrir, hbase⟩ := hvtrue
      constructor
      · rw [hcount, ← hsum]
        exact hbase
      · intro _
        rw [hpassing, ← hfilter]
        exact hrir
    · simp only [hlen, if_false, decide_eq_true_eq] at hvtrue
      constructor
      · rw [hcount, ← hsum]
        exact hvtrue
      · intro hlen2
        exact absurd hlen2 hlen

/-- What a completed run of the attempt loop guarantees: there is a final
attempt number `n` between the starting attempt and `max_attempts` such that
every earlier attempt completed with a `false` verdict, attempt `n` completed,
the loop stopped there because the verdict was `true` or `n` hit
`max_attempts`, and the response is built from attempt `n`'s responses and
verdict with the failed attempts accumulated, oldest first, behind `prev`. -/
theorem runAttempts_ok_some_char (outcome : Int → RemotePerspective → CallOutcome)
    (cohorts : List (List RemotePerspective)) (ct : CheckType) (creq : CheckRequest)
    (request : MpicRequest) (pc q maxA : Int) (fuel : Nat) :
    ∀ (k : Int) (prev : Option (List (List CheckResponse))) (resp : MpicResponse),
    (maxA + 1 - k).toNat = fuel →
    runAttempts outcome cohorts ct creq request pc q maxA fuel k prev = .ok (some resp) →
    cohorts.length ≠ 0 ∧
    ∃ n : Int, k ≤ n ∧ n ≤ maxA ∧
      (∀ j : Int, k ≤ j → j < n →
        attemptStep outcome cohorts ct creq q j
          = .ok (stepResponses outcome cohorts ct creq q j, false)
        ∧ stepValid outcome cohorts ct creq q j = false) ∧
      attemptStep outcome cohorts ct creq q n
        = .ok (stepResponses outcome cohorts ct creq q n,
            stepValid outcome cohorts ct creq q n) ∧
      (stepValid outcome cohorts ct creq q n = true ∨ n = maxA) ∧
      resp = build_response request pc q n (stepResponses outcome cohorts ct creq q n)
        (stepValid outcome cohorts ct creq q n)
        (if n = k then prev
         else some (prev.getD [] ++ (List.range (n - k).toNat).map
           (fun i : Nat => stepResponses outcome cohorts ct creq q (k + (i : Int))))) := by
  induction fuel with
  | zero =>
    intro k prev resp _ hrun
    simp [runAttempts] at hrun
  | succ fuel ih =>
    intro k prev resp hfuel hrun
    have hkmax : k ≤ maxA := by omega
    simp only [runAttempts] at hrun
    by_cases hcoh : cohorts.length = 0
    · simp [hcoh] at hrun
    · rw [if_neg hcoh] at hrun
      cases hstep : attemptStep outcome cohorts ct creq q k with
      | error e => rw [hstep] at hrun; cases hrun
      | ok rv =>
        obtain ⟨rs, v⟩ := rv
        simp only [hstep] at hrun
        have hsr : stepResponses outcome cohorts ct creq q k = rs := by
          simp [stepResponses, hstep]
        have hsv : stepValid outcome cohorts ct creq q k = v := by
          simp [stepValid, hstep]
        by_cases hret : (v || decide (k = maxA)) = true
        · rw [if_pos hret] at hrun
          simp only [Except.ok.injEq, Option.some.injEq] at hrun
          refine ⟨hcoh, k, le_refl k, hkmax, ?_, ?_, ?_, ?_⟩
          · intro j hj1 hj2; omega
          · rw [hsr, hsv]; exact hstep
          · rcases Bool.or_eq_true_iff.mp hret with hv | hk
            · exact Or.inl (hsv.trans hv)
            · exact Or.inr (of_decide_eq_true hk)
          · rw [if_pos rfl, hsr, hsv]
            exact hrun.symm
        · rw [if_neg hret] at hrun
          have hv : v = false := by
            cases v
            · rfl
            · exact absurd (by simp) hret
          have hkne : ¬(k = maxA) := by
            intro hk
            exact hret (by simp [hk])
          have hfuel' : (maxA + 1 - (k + 1)).toNat = fuel := by omega
          obtain ⟨_, n, hkn, hnmax, hfail, hstepn, hfinal, hresp⟩ :=
            ih (k + 1) (some (prev.getD [] ++ [rs])) resp hfuel' hrun
          refine ⟨hcoh, n, by omega, hnmax, ?_, hstepn, hfinal, ?_⟩
          · intro j hj1 hj2
            by_cases hjk : j = k
            · subst hjk
              refine ⟨?_, hsv.trans hv⟩
              rw [hsr]
              rw [hv] at hstep
              exact hstep
            · exact hfail j (by omega) hj2
          · rw [hresp]
            have hnk : ¬(n = k) := by omega
            rw [if_neg hnk]
            by_cases hnk1 : n = k + 1
            · subst hnk1
              rw [if_pos rfl]
              have h1 : ((k + 1 : Int) - k).toNat = 1 := by omega
              rw [h1]
              have h2 : (List.range 1).map
                  (fun i : Nat => stepResponses outcome cohorts ct creq q (k + (i : Int)))
                  = [stepResponses outcome cohorts ct creq q k] := by
                rw [show List.range 1 = [0] from rfl]
                simp only [List.map_cons, List.map_nil, Nat.cast_zero, add_zero]
              rw [h2, hsr]
            · rw [if_neg hnk1]
              have hm : ((n : Int) - k).toNat = (n - (k + 1)).toNat + 1 := by omega
              have hshift : (List.range ((n : Int) - (k + 1)).toNat).map
                  ((fun i : Nat => stepResponses outcome cohorts ct creq q (k + (i : Int)))
                    ∘ Nat.succ)
                  = (List.range ((n : Int) - (k + 1)).toNat).map
                    (fun i : Nat => stepResponses outcome cohorts ct creq q
                      ((k + 1) + (i : Int))) := by
                apply List.map_congr_left
                intro a _
                simp only [Function.comp]
                congr 1
                push_cast
                ring
              have hlist : (List.range ((n : Int) - k).toNat).map
                  (fun i : Nat => stepResponses outcome cohorts ct creq q (k + (i : Int)))
                  = stepResponses outcome cohorts ct creq q k
                    :: (List.range ((n : Int) - (k + 1)).toNat).map
                      (fun i : Nat => stepResponses outcome cohorts ct creq q
                        ((k + 1) + (i : Int))) := by
                rw [hm, List.range_succ_eq_map, List.map_cons, List.map_map, hshift]
                norm_num
              rw [hlist, hsr, Option.getD_some]
              simp [List.append_assoc]

/-- The cohort list `coordinate_mpic` builds for a request. -/
def coordCohorts (cfg : MpicCoordinatorConfiguration)
    (cohortsFor : Int → String → List (List RemotePerspective)) (request : MpicRequest) :
    List (List RemotePerspective) :=
  cohortsFor (resolvedPerspectiveCount cfg request) request.domain_or_ip_target

/-- The quorum count `coordinate_mpic` uses for a request. -/
def coordQuorum (cfg : MpicCoordinatorConfiguration) (request : MpicRequest) : Int :=
  determine_required_quorum_count request.orchestration_parameters
    (resolvedPerspectiveCount cfg request)

/-- The responses of attempt `k` of a coordinated request. -/
def coordStepResponses (cfg : MpicCoordinatorConfiguration)
    (cohortsFor : Int → String → List (List RemotePerspective))
    (outcome : Int → RemotePerspective → CallOutcome) (request : MpicRequest) (k : Int) :
    List CheckResponse :=
  stepResponses outcome (coordCohorts cfg cohortsFor request) request.check_type
    (checkRequestOf request) (coordQuorum cfg request) k

/-- The `is_valid_result` verdict of attempt `k` of a coordinated request. -/
def coordStepValid (cfg : MpicCoordinatorConfiguration)
    (cohortsFor : Int → String → List (List RemotePerspective))
    (outcome : Int → RemotePerspective → CallOutcome) (request : MpicRequest) (k : Int) :
    Bool :=
  stepValid outcome (coordCohorts cfg cohortsFor request) request.check_type
    (checkRequestOf request) (coordQuorum cfg request) k

/-- A completed `coordinate_mpic` run is a completed run of the attempt loop
with the resolved parameters (the validation and cohort-size guards cannot
have fired). -/
theorem coordinate_mpic_ok_run (cfg : MpicCoordinatorConfiguration)
    (cohortsFor : Int → String → List (List RemotePerspective))
    (outcome : Int → RemotePerspective → CallOutcome) (request : MpicRequest)
    (resp : MpicResponse)
    (h : coordinate_mpic cfg cohortsFor outcome request = .ok (some resp)) :
    runAttempts outcome (coordCohorts cfg cohortsFor request) request.check_type
      (checkRequestOf request) request (resolvedPerspectiveCount cfg request)
      (coordQuorum cfg request) (resolvedMaxAttempts cfg request)
      (resolvedMaxAttempts cfg request).toNat 1 none = .ok (some resp) := by
  rw [coordinate_mpic] at h
  by_cases hval : (is_request_valid request cfg.target_perspectives).1
  · rw [hval] at h
    simp only [Bool.not_true, Bool.false_eq_true, if_false] at h
    by_cases hsize : (cfg.target_perspectives.length : Int)
        < resolvedPerspectiveCount cfg request
    · rw [if_pos hsize] at h
      cases h
    · rw [if_neg hsize] at h
      exact h
  · rw [Bool.not_eq_true] at hval
    rw [hval] at h
    simp only [Bool.not_false, if_true] at h
    cases h

/-- C9: a returned MPIC response took `attempt_count` attempts with
`1 <= attempt_count <= max_attempts`; `previous_attempt_results` is absent
exactly when `attempt_count = 1` and otherwise lists, oldest first, the
per-perspective responses of the `attempt_count - 1` failed attempts; and the
loop stopped exactly because the final attempt satisfied quorum or the attempt
number reached `max_attempts`, every earlier attempt having failed. -/
theorem previous_attempt_results_tracks_failed_attempts
    (cfg : MpicCoordinatorConfiguration)
    (cohortsFor : Int → String → List (List RemotePerspective))
    (outcome : Int → RemotePerspective → CallOutcome) (request : MpicRequest)
    (resp : MpicResponse)
    (h : coordinate_mpic cfg cohortsFor outcome request = .ok (some resp)) :
    1 ≤ resp.actual_orchestration_parameters.attempt_count ∧
    resp.actual_orchestration_parameters.attempt_count ≤ resolvedMaxAttempts cfg request ∧
    (resp.actual_orchestration_parameters.attempt_count = 1 →
      resp.previous_attempt_results = none) ∧
    (1 < resp.actual_orchestration_parameters.attempt_count →
      ∃ l, resp.previous_attempt_results = some l ∧
        (l.length : Int) = resp.actual_orchestration_parameters.attempt_count - 1 ∧
        ∀ i : Nat, i < l.length →
          l.getD i [] = coordStepResponses cfg cohortsFor outcome request (1 + (i : Int)) ∧
          coordStepValid cfg cohortsFor outcome request (1 + (i : Int)) = false) ∧
    (coordStepValid cfg cohortsFor outcome request
        resp.actual_orchestration_parameters.attempt_count = true
      ∨ resp.actual_orchestration_parameters.attempt_count = resolvedMaxAttempts cfg request) ∧
    (∀ j : Int, 1 ≤ j → j < resp.actual_orchestration_parameters.attempt_count →
      coordStepValid cfg cohortsFor outcome request j = false) := by
  have hrun := coordinate_mpic_ok_run cfg cohortsFor outcome request resp h
  obtain ⟨hne, n, h1n, hnmax, hfail, hstepn, hfinal, hresp⟩ :=
    runAttempts_ok_some_char outcome (coordCohorts cfg cohortsFor request) request.check_type
      (checkRequestOf request) request (resolvedPerspectiveCount cfg request)
      (coordQuorum cfg request) (resolvedMaxAttempts cfg request)
      (resolvedMaxAttempts cfg request).toNat 1 none resp (by omega) hrun
  have hac : resp.actual_orchestration_parameters.attempt_count = n := by
    rw [hresp]
    rfl
  have hprev : resp.previous_attempt_results
      = (if n = 1 then none
         else some ((List.range (n - 1).toNat).map
           (fun i : Nat => stepResponses outcome (coordCohorts cfg cohortsFor request)
             request.check_type (checkRequestOf request) (coordQuorum cfg request)
             (1 + (i : Int))))) := by
    rw [hresp]
    simp only [build_response, Option.getD_none, List.nil_append]
  rw [hac, hprev]
  refine ⟨h1n, hnmax, ?_, ?_, ?_, ?_⟩
  · intro hn1
    rw [if_pos hn1]
  · intro hn1
    have hne1 : ¬(n = 1) := by omega
    rw [if_neg hne1]
    refine ⟨_, rfl, ?_, ?_⟩
    · simp only [List.length_map, List.length_range]
      omega
    · intro i hi
      simp only [List.length_map, List.length_range] at hi
      have hgd : ((List.range (n - 1).toNat).map
          (fun i : Nat => stepResponses outcome (coordCohorts cfg cohortsFor request)
            request.check_type (checkRequestOf request) (coordQuorum cfg request)
            (1 + (i : Int)))).getD i []
          = stepResponses outcome (coordCohorts cfg cohortsFor request) request.check_type
            (checkRequestOf request) (coordQuorum cfg request) (1 + (i : Int)) := by
        rw [List.getD_eq_getElem _ _ (by simpa using hi)]
        simp
      have hj := hfail (1 + (i : Int)) (by omega) (by omega)
      exact ⟨hgd, hj.2⟩
  · exact hfinal
  · intro j hj1 hj2
    exact (hfail j hj1 hj2).2

/-- The cohort handed to any attempt is one of the built cohorts (the loop
would have raised `StopIteration` on an empty cohort list). -/
theorem cohortAt_mem (cohorts : List (List RemotePerspective)) (k : Int)
    (hne : cohorts.length ≠ 0) : cohortAt cohorts k ∈ cohorts := by
  rw [cohortAt]
  have hlt : (k - 1).toNat % cohorts.length < cohorts.length :=
    Nat.mod_lt _ (Nat.pos_of_ne_zero hne)
  rw [List.getD_eq_getElem _ _ hlt]
  exact List.getElem_mem hlt

/-- C1: for every MPIC response returned by `coordinate_mpic` with
`is_valid = true` (perspective codes within each cohort being distinct, as
globally unique perspective codes guarantee), the number of perspectives in
the final attempt whose `check_passed` is true is at least the quorum count,
and if the cohort used for that attempt has more than 2 perspectives, the
passing perspectives span at least two distinct RIRs. -/
theorem coordinate_mpic_valid_implies_quorum_and_rir_diversity
    (cfg : MpicCoordinatorConfiguration)
    (cohortsFor : Int → String → List (List RemotePerspective))
    (outcome : Int → RemotePerspective → CallOutcome) (request : MpicRequest)
    (resp : MpicResponse)
    (hnodup : ∀ c ∈ coordCohorts cfg cohortsFor request, (c.map (fun p => p.code)).Nodup)
    (h : coordinate_mpic cfg cohortsFor outcome request = .ok (some resp))
    (hv : resp.is_valid = true) :
    coordQuorum cfg request ≤ (countPassing resp.perspectives : Int) ∧
    (2 < (cohortAt (coordCohorts cfg cohortsFor request)
        resp.actual_orchestration_parameters.attempt_count).length →
      2 ≤ (((passingPerspectives
          (cohortAt (coordCohorts cfg cohortsFor request)
            resp.actual_orchestration_parameters.attempt_count)
          resp.perspectives).map (fun p => p.rir)).dedup).length) := by
  have hrun := coordinate_mpic_ok_run cfg cohortsFor outcome request resp h
  obtain ⟨hne, n, h1n, hnmax, hfail, hstepn, hfinal, hresp⟩ :=
    runAttempts_ok_some_char outcome (coordCohorts cfg cohortsFor request) request.check_type
      (checkRequestOf request) request (resolvedPerspectiveCount cfg request)
      (coordQuorum cfg request) (resolvedMaxAttempts cfg request)
      (resolvedMaxAttempts cfg request).toNat 1 none resp (by omega) hrun
  have hac : resp.actual_orchestration_parameters.attempt_count = n := by
    rw [hresp]
    rfl
  have hpersp : resp.perspectives
      = stepResponses outcome (coordCohorts cfg cohortsFor request) request.check_type
        (checkRequestOf request) (coordQuorum cfg request) n := by
    rw [hresp]
    rfl
  have hvn : stepValid outcome (coordCohorts cfg cohortsFor request) request.check_type
      (checkRequestOf request) (coordQuorum cfg request) n = true := by
    have : resp.is_valid = stepValid outcome (coordCohorts cfg cohortsFor request)
        request.check_type (checkRequestOf request) (coordQuorum cfg request) n := by
      rw [hresp]
      rfl
    rw [← this]
    exact hv
  have hchar := attemptStep_ok_char (outcome) (coordCohorts cfg cohortsFor request)
    request.check_type (checkRequestOf request) (coordQuorum cfg request) n
    (stepResponses outcome (coordCohorts cfg cohortsFor request) request.check_type
      (checkRequestOf request) (coordQuorum cfg request) n)
    (stepValid outcome (coordCohorts cfg cohortsFor request) request.check_type
      (checkRequestOf request) (coordQuorum cfg request) n)
    (hnodup _ (cohortAt_mem _ _ hne)) hstepn
  obtain ⟨_, hvalid⟩ := hchar
  obtain ⟨hquorum, hrir⟩ := hvalid hvn
  rw [hac, hpersp]
  exact ⟨hquorum, hrir⟩

/-- A CAA MPIC request with no orchestration parameters. -/
def plainCaaMpicRequest : MpicRequest := .caaRequest "example.com" none none none

/-- The response of coordinating `plainCaaMpicRequest` over one two-perspective
cohort with both perspectives passing. -/
def bothPassResponse : MpicResponse :=
  { check_type := .caa
    domain_or_ip_target := "example.com"
    trace_identifier := none
    is_valid := true
    perspectives := [passingCaaResponse, passingCaaResponse]
    request_orchestration_parameters := none
    actual_orchestration_parameters :=
      { perspective_count := 2, quorum_count := 1, attempt_count := 1 }
    previous_attempt_results := none
    caa_check_parameters := none
    dcv_check_parameters := none }

/-- C1 (witness): the two-perspective both-pass run is valid and satisfies the
quorum and (vacuous, cohort of 2) RIR-diversity conclusions. -/
theorem coordinate_mpic_valid_implies_quorum_and_rir_diversity_witness :
    coordQuorum twoPerspectiveConfig plainCaaMpicRequest
      ≤ (countPassing bothPassResponse.perspectives : Int) ∧
    (2 < (cohortAt (coordCohorts twoPerspectiveConfig
        (fun _ _ => [[perspectiveA, perspectiveB]]) plainCaaMpicRequest)
        bothPassResponse.actual_orchestration_parameters.attempt_count).length →
      2 ≤ (((passingPerspectives
          (cohortAt (coordCohorts twoPerspectiveConfig
            (fun _ _ => [[perspectiveA, perspectiveB]]) plainCaaMpicRequest)
            bothPassResponse.actual_orchestration_parameters.attempt_count)
          bothPassResponse.perspectives).map (fun p => p.rir)).dedup).length) :=
  coordinate_mpic_valid_implies_quorum_and_rir_diversity twoPerspectiveConfig
    (fun _ _ => [[perspectiveA, perspectiveB]]) (fun _ _ => .ok passingCaaResponse)
    plainCaaMpicRequest bothPassResponse (by decide) rfl rfl

/-- A CAA MPIC request asking for up to two attempts. -/
def twoAttemptCaaMpicRequest : MpicRequest :=
  .caaRequest "example.com" none (some { max_attempts := some 2 }) none

/-- The per-attempt outcomes in which attempt 1 fails everywhere and attempt 2
passes everywhere. -/
def failThenPassOutcome : Int → RemotePerspective → CallOutcome :=
  fun k _ => if k = 1 then .ok failingCaaResponse else .ok passingCaaResponse

/-- The response of coordinating `twoAttemptCaaMpicRequest` under
`failThenPassOutcome`: two attempts, the first accumulated into
`previous_attempt_results`. -/
def secondAttemptResponse : MpicResponse :=
  { check_type := .caa
    domain_or_ip_target := "example.com"
    trace_identifier := none
    is_valid := true
    perspectives := [passingCaaResponse, passingCaaResponse]
    request_orchestration_parameters := some { max_attempts := some 2 }
    actual_orchestration_parameters :=
      { perspective_count := 2, quorum_count := 1, attempt_count := 2 }
    previous_attempt_results := some [[failingCaaResponse, failingCaaResponse]]
    caa_check_parameters := none
    dcv_check_parameters := none }

/-- C9 (witness): the fail-then-pass run returns after attempt 2 with a
one-element `previous_attempt_results` holding attempt 1's responses. -/
theorem previous_attempt_results_tracks_failed_attempts_witness :
    1 ≤ secondAttemptResponse.actual_orchestration_parameters.attempt_count ∧
    secondAttemptResponse.actual_orchestration_parameters.attempt_count
      ≤ resolvedMaxAttempts twoPerspectiveConfig twoAttemptCaaMpicRequest ∧
    (secondAttemptResponse.actual_orchestration_parameters.attempt_count = 1 →
      secondAttemptResponse.previous_attempt_results = none) ∧
    (1 < secondAttemptResponse.actual_orchestration_parameters.attempt_count →
      ∃ l, secondAttemptResponse.previous_attempt_results = some l ∧
        (l.length : Int)
          = secondAttemptResponse.actual_orchestration_parameters.attempt_count - 1 ∧
        ∀ i : Nat, i < l.length →
          l.getD i [] = coordStepResponses twoPerspectiveConfig
            (fun _ _ => [[perspectiveA, perspectiveB]]) failThenPassOutcome
            twoAttemptCaaMpicRequest (1 + (i : Int)) ∧
          coordStepValid twoPerspectiveConfig (fun _ _ => [[perspectiveA, perspectiveB]])
            failThenPassOutcome twoAttemptCaaMpicRequest (1 + (i : Int)) = false) ∧
    (coordStepValid twoPerspectiveConfig (fun _ _ => [[perspectiveA, perspectiveB]])
        failThenPassOutcome twoAttemptCaaMpicRequest
        secondAttemptResponse.actual_orchestration_parameters.attempt_count = true
      ∨ secondAttemptResponse.actual_orchestration_parameters.attempt_count
        = resolvedMaxAttempts twoPerspectiveConfig twoAttemptCaaMpicRequest) ∧
    (∀ j : Int, 1 ≤ j →
      j < secondAttemptResponse.actual_orchestration_parameters.attempt_count →
      coordStepValid twoPerspectiveConfig (fun _ _ => [[perspectiveA, perspectiveB]])
        failThenPassOutcome twoAttemptCaaMpicRequest j = false) :=
  previous_attempt_results_tracks_failed_attempts twoPerspectiveConfig
    (fun _ _ => [[perspectiveA, perspectiveB]]) failThenPassOutcome
    twoAttemptCaaMpicRequest secondAttemptResponse rfl
